import Mathlib

/-!
kubectl-node-maintain: the workflow state machine.

A shallow embedding of `pkg/plugin` (types.go, ui.go, kubernetes.go, model.go).

* The Bubble Tea list widget, the spinner and lipgloss are external: they are
  the fields of a `Toolkit`, and every definition is parameterised by one.
* The cluster API, the drain helper, the clock and the Go runtime's map
  iteration order are external: they are the fields of a `Cluster`.  Every
  answer of the cluster may depend on the effects issued so far, which are
  threaded through the definitions as a log (`List Effect`).
* A Go panic (failed type assertion, nil dereference, index out of range) is
  `Except.error`.
* A `tea.Cmd` is a value of `Cmd`; the closures built by the repository are
  values of `Work` carrying what they capture, and their bodies are
  `getNodes`, `getPods`, `deletePod`, `drainNode`, `deleteNonDaemonsetPods`
  and `markQuitting`.
-/

namespace NodeMaintain

/-! ## Cluster API objects (the fields the program reads) -/

/-- One entry of `node.Status.Conditions`; `CondType` is the field `Type`
(a reserved word here). -/
structure NodeCondition where
  CondType : String
  Status : String
deriving DecidableEq, Repr

/-- The fields of `corev1.Node` read by the program. -/
structure Node where
  Name : String
  Labels : List (String × String)
  Unschedulable : Bool
  Conditions : List NodeCondition
  KubeletVersion : String
  Addresses : List String
  CreationTimestamp : Int
deriving DecidableEq, Repr

/-- One entry of `pod.OwnerReferences`. -/
structure OwnerReference where
  Name : String
  Kind : String
deriving DecidableEq, Repr

/-- The fields of `corev1.Pod` read by the program. -/
structure Pod where
  Name : String
  Namespace : String
  OwnerReferences : List OwnerReference
  Phase : String
  CreationTimestamp : Int
deriving DecidableEq, Repr

/-! ## types.go -/

/-- The `item` record of types.go: a menu entry. -/
structure item where
  title : String
  desc : String
deriving DecidableEq, Repr

/-- Method `Title` of `item`. -/
def item.Title (i : item) : String := i.title

/-- The workflow states (the seven `State` constants of types.go). -/
inductive State where
  | StateSelectNode
  | StateSelectAction
  | StateConfirmCordon
  | StateConfirmToggle
  | StateConfirm
  | StateSelectPods
  | StateConfirmPod
deriving DecidableEq, Repr

open State

def ActionForceDrainNode : String := "Force Drain node"
def ActionForceDeleteNonDS : String := "Force delete non-daemonset pods"
def ActionForceDeleteSelected : String := "Force delete selected pods"
def ActionBack : String := "Back"

def ConfirmYes : String := "Yes"
def ConfirmNo : String := "No"

def DescDrainNode : String := "Execute drain operation"
def DescForceDeleteNonDS : String := "Delete all non-DaemonSet pods"
def DescForceDeleteSelected : String := "Choose pods to delete"
def DescCancelBack : String := "Cancel and go back"
def DescBack : String := "Return to previous screen"

def MsgCordon : String := "cordon"
def MsgUncordon : String := "uncordon"

def KeySpace : String := " "
def KeyEnter : String := "enter"
def KeyCtrlC : String := "ctrl+c"
def KeyQ : String := "q"
def KeyEsc : String := "esc"
def KeyC : String := "c"

/-- The `nodeInfo` record of types.go (durations are nanosecond counts). -/
structure nodeInfo where
  name : String
  status : String
  schedulable : Bool
  roles : List String
  age : Int
  version : String
  internal : String
  conditions : List String
deriving DecidableEq, Repr

/-- The `podInfo` record of types.go; `nspace` is the field `namespace`
(a reserved word here). -/
structure podInfo where
  name : String
  nspace : String
  owner : String
  ownerKind : String
  phase : String
  age : Int
  selected : Bool
deriving DecidableEq, Repr

/-- A `list.Item` as the program uses it: one of the three record types that
are put into the list widget.  A Go type assertion is a match on the tag. -/
inductive Item where
  | ofItem (i : item)
  | ofNode (n : nodeInfo)
  | ofPod (p : podInfo)
deriving DecidableEq, Repr

/-- The messages `model.Update` distinguishes in its type switch.  A key
message is identified by its `String()` rendering, the only thing the program
reads from it; `other` is any message of another type (spinner ticks, filter
results, mouse events). -/
inductive Msg where
  | KeyMsg (s : String)
  | WindowSizeMsg (Width Height : Int)
  | error (e : String)
  | nodesMsg (nodes : List nodeInfo)
  | podsMsg (pods : List podInfo)
  | other (tag : Nat)
deriving DecidableEq, Repr

/-- The `String()` of the zero `tea.KeyMsg`, which is what `keyMsg` holds in
the else-branch of a failed `msg.(tea.KeyMsg)` assertion (key type 0 is the
NUL key, rendered "ctrl+@"). -/
def zeroKeyMsgString : String := "ctrl+@"

/-- The command closures built by this repository (kubernetes.go and
model.go), with the values they capture; their bodies are run by `runWork`. -/
inductive Work where
  | getNodes
  | getPods (nodeName : String)
  | deletePod (nspace name : String)
  | drainNode (selectedNode : Option Node) (selectedNodeName : String)
  | deleteNonDaemonsetPods (selectedNodeName : String)
  | markQuitting
deriving DecidableEq, Repr

/-- What the list widget's `Update` returns: nil, `tea.Quit`, or another
command of the toolkit (a filter run, a status timer). -/
inductive WidgetCmd where
  | nil
  | Quit
  | other (tag : Nat)
deriving DecidableEq, Repr

/-- Commands (`tea.Cmd`): nil, the toolkit's own commands, the repository's
closures, and the two combinators. -/
inductive Cmd where
  | nil
  | EnterAltScreen
  | ExitAltScreen
  | Quit
  | spinnerTick
  | widget (tag : Nat)
  | work (w : Work)
  | Sequence (cmds : List Cmd)
  | Batch (cmds : List Cmd)

/-- What the program does to the outside world, in order. -/
inductive Effect where
  | NodesList
  | NodesGet (name : String)
  | PodsList (nodeName : String)
  | PodsDelete (nspace name : String)
  | RunCordonOrUncordon (node : Option Node) (desired : Bool)
  | RunNodeDrain (nodeName : String)
  | Printf (line : String)
deriving DecidableEq, Repr

/-- The outside world: the cluster API behind the clientset, the drain helper
built by `newDrainer` (its settings are fixed), the clock and the Go runtime.
Each answer may depend on the effects so far.  `RunCordonOrUncordon` receives
the node pointer and returns the error (`none` for nil); the program only
asks it on a node that is not nil, since the helper dereferences the node
first and a nil node is a panic.  `cordonWrites` is the node record that call
leaves behind the pointer.
`rangePods` and `rangeLabels` are the order in which the Go runtime iterates
a map whose entries are given in insertion order. -/
structure Cluster where
  NodesList : List Effect → Except String (List Node)
  NodesGet : List Effect → String → Except String Node
  PodsList : List Effect → String → Except String (List Pod)
  PodsDelete : List Effect → String → String → Option String
  RunCordonOrUncordon : List Effect → Option Node → Bool → Option String
  cordonWrites : List Effect → Node → Bool → Node
  RunNodeDrain : List Effect → String → Option String
  Since : List Effect → Int → Int
  Round : Int → Int → Int
  rangePods : List (String × podInfo) → List (String × podInfo)
  rangeLabels : List (String × String) → List (String × String)

/-- The UI toolkit: the list widget of bubbles, the spinner, lipgloss. -/
structure Toolkit where
  ListModel : Type
  New : List Item → Int → Int → ListModel
  SetShowStatusBar : ListModel → Bool → ListModel
  SetFilteringEnabled : ListModel → Bool → ListModel
  setTitle : ListModel → String → ListModel
  setTitleStyle : ListModel → ListModel
  Update : ListModel → Msg → ListModel × WidgetCmd
  SelectedItem : ListModel → Option Item
  Items : ListModel → Option (List Item)
  Index : ListModel → Nat
  SetItems : ListModel → List Item → ListModel
  Select : ListModel → Nat → ListModel
  SetSize : ListModel → Int → Int → ListModel
  listView : ListModel → String
  GetFrameSize : Int × Int
  Render : String → String
  spinnerView : String

/-- The `model` record of types.go.  The fields `spinner` and `clientset`
are never written after `initialModel`; they are the `Toolkit` and the
`Cluster` the definitions take. -/
structure model (kit : Toolkit) where
  list : kit.ListModel
  width : Int
  height : Int
  selectedNodeName : String
  selectedNode : Option Node
  pods : List podInfo
  selectedPods : List (String × podInfo)
  state : State
  err : Option String
  quitting : Bool
  confirm : Bool
  action : String

/-- A command of the list widget as a `tea.Cmd`. -/
def Cmd.ofWidget : WidgetCmd → Cmd
  | .nil => Cmd.nil
  | .Quit => Cmd.Quit
  | .other tag => Cmd.widget tag

/-! ## ui.go -/

/-- The function `createList` of ui.go. -/
def createList (kit : Toolkit) (items : List Item) (title : String) (width height : Int) :
    kit.ListModel :=
  let l := kit.New items width height
  let l := kit.SetShowStatusBar l false
  let l := kit.SetFilteringEnabled l true
  let l := kit.setTitle l title
  kit.setTitleStyle l

/-! ## kubernetes.go -/

/-- What running a command closure gives: a panic, or the message it returns
(`none` for nil) and the log of effects after it. -/
abbrev CmdResult := Except String (Option Msg × List Effect)

/-- The loop over `node.Status.Conditions` in `getNodes`: collects the names
of the true conditions up to and including the `Ready` condition, where it
breaks; the first component is the `ready` text. -/
def scanConditions : List NodeCondition → String × List String
  | [] => ("NotReady", [])
  | condition :: rest =>
    let here := if condition.Status = "True" then [condition.CondType] else []
    if condition.CondType = "Ready" then
      (if condition.Status = "True" then "Ready" else "NotReady", here)
    else
      let r := scanConditions rest
      (r.1, here ++ r.2)

/-- The function `getNodeRoles`: the labels with the role prefix, the prefix
cut off, sorted as `sort.Strings` does (bytewise, which on UTF-8 text is the
order of the character lists). -/
def getNodeRoles (cl : Cluster) (labels : List (String × String)) : List String :=
  let roles := (cl.rangeLabels labels).filterMap fun kv =>
    if "node-role.kubernetes.io/".data.isPrefixOf kv.1.data then
      some (String.mk (kv.1.data.drop "node-role.kubernetes.io/".length))
    else none
  roles.insertionSort fun a b => a.data ≤ b.data

/-- One iteration of the loop over `nodeList.Items` in `getNodes`; indexing
`node.Status.Addresses[0]` panics on a node without addresses. -/
def toNodeInfo (cl : Cluster) (log : List Effect) (node : Node) : Except String nodeInfo :=
  let sc := scanConditions node.Conditions
  let roles := getNodeRoles cl node.Labels
  let roles := if roles.length = 0 then ["<none>"] else roles
  let age := cl.Round (cl.Since log node.CreationTimestamp) 1000000000
  match node.Addresses with
  | [] => .error "index out of range [0] with length 0"
  | address :: _ =>
    .ok { name := node.Name, status := sc.1, schedulable := !node.Unschedulable,
          roles := roles, age := age, version := node.KubeletVersion,
          internal := address, conditions := sc.2 }

/-- The closure returned by `getNodes(clientset)`; `clientset` is `none` for
a nil client. -/
def getNodes (clientset : Option Cluster) (log : List Effect) : CmdResult :=
  match clientset with
  | none => .ok (some (Msg.error "kubernetes client is not initialized"), log)
  | some cl =>
    let log1 := log ++ [Effect.NodesList]
    match cl.NodesList log with
    | .error err => .ok (some (Msg.error err), log1)
    | .ok items =>
      if items.length = 0 then
        .ok (some (Msg.error "no nodes found in the cluster"), log1)
      else
        match items.mapM (toNodeInfo cl log1) with
        | .error p => .error p
        | .ok nodes => .ok (some (Msg.nodesMsg nodes), log1)

/-- One iteration of the loop over `podList.Items` in `getPods`. -/
def toPodInfo (cl : Cluster) (log : List Effect) (pod : Pod) : podInfo :=
  let owner := match pod.OwnerReferences with
    | [] => ("", "")
    | o :: _ => (o.Name, o.Kind)
  { name := pod.Name, nspace := pod.Namespace, owner := owner.1, ownerKind := owner.2,
    phase := pod.Phase, age := cl.Since log pod.CreationTimestamp, selected := false }

/-- The closure returned by `getPods(clientset, nodeName)`. -/
def getPods (cl : Cluster) (nodeName : String) (log : List Effect) : CmdResult :=
  let log1 := log ++ [Effect.PodsList nodeName]
  match cl.PodsList log nodeName with
  | .error err => .ok (some (Msg.error err), log1)
  | .ok items => .ok (some (Msg.podsMsg (items.map (toPodInfo cl log1))), log1)

/-- The function `getNode`: the node and the error (one of them nil). -/
def getNode (cl : Cluster) (log : List Effect) (nodeName : String) :
    (Option Node × Option String) × List Effect :=
  match cl.NodesGet log nodeName with
  | .error err => ((none, some err), log ++ [Effect.NodesGet nodeName])
  | .ok node => ((some node, none), log ++ [Effect.NodesGet nodeName])

/-- The closure returned by `deletePod(clientset, namespace, name)`. -/
def deletePod (cl : Cluster) (nspace name : String) (log : List Effect) : CmdResult :=
  match cl.PodsDelete log nspace name with
  | some err =>
    .ok (some (Msg.error ("failed to delete pod " ++ nspace ++ "/" ++ name ++ ": " ++ err)),
         log ++ [Effect.PodsDelete nspace name])
  | none =>
    .ok (none, log ++ [Effect.PodsDelete nspace name,
                       Effect.Printf ("Successfully deleted pod " ++ nspace ++ "/" ++ name ++ "\n")])

/-- The function `isDaemonSetPod`. -/
def isDaemonSetPod (pod : Pod) : Bool :=
  pod.OwnerReferences.any fun owner => owner.Kind = "DaemonSet"

/-! ## model.go -/

/-- The function `initialModel`; `size` is the answer of `term.GetSize`
(`none` when it fails, and the size defaults to 80x24). -/
def initialModel (kit : Toolkit) (size : Option (Int × Int)) : model kit :=
  let wh := match size with
    | some wh => wh
    | none => (80, 24)
  { list := createList kit [] "Loading nodes..." wh.1 wh.2
    width := wh.1
    height := wh.2
    selectedNodeName := ""
    selectedNode := none
    pods := []
    selectedPods := []
    state := StateSelectNode
    err := none
    quitting := false
    confirm := false
    action := "" }

/-- Method `Init` of `model`. -/
def Init : Cmd :=
  Cmd.Sequence [Cmd.EnterAltScreen, Cmd.Batch [Cmd.spinnerTick, Cmd.work Work.getNodes]]

/-- The closure returned in state `confirm` for `ActionForceDrainNode`
(model.go:221); its write to `m.quitting` goes to the closure's own copy of
the model and is not seen by the program. -/
def drainNode (cl : Cluster) (selectedNode : Option Node) (selectedNodeName : String)
    (log : List Effect) : CmdResult :=
  match selectedNode with
  | none => .error "nil pointer dereference"
  | some node =>
    match cl.RunNodeDrain log node.Name with
    | some err =>
      .ok (some (Msg.error ("failed to drain node " ++ selectedNodeName ++ ": " ++ err)),
           log ++ [Effect.RunNodeDrain node.Name])
    | none =>
      .ok (none, log ++ [Effect.RunNodeDrain node.Name,
                         Effect.Printf ("Successfully drained node " ++ selectedNodeName ++ "\n")])

/-- The loop over `pods.Items` of the closure at model.go:230. -/
def deleteNonDaemonsetLoop (cl : Cluster) : List Pod → List Effect → List Effect
  | [], log => log
  | pod :: rest, log =>
    if !isDaemonSetPod pod then
      match cl.PodsDelete log pod.Namespace pod.Name with
      | some err =>
        deleteNonDaemonsetLoop cl rest
          (log ++ [Effect.PodsDelete pod.Namespace pod.Name,
                   Effect.Printf ("Failed to delete pod " ++ pod.Namespace ++ "/" ++ pod.Name
                                    ++ ": " ++ err ++ "\n")])
      | none =>
        deleteNonDaemonsetLoop cl rest
          (log ++ [Effect.PodsDelete pod.Namespace pod.Name,
                   Effect.Printf ("Successfully deleted pod " ++ pod.Namespace ++ "/" ++ pod.Name
                                    ++ "\n")])
    else deleteNonDaemonsetLoop cl rest log

/-- The closure returned in state `confirm` for `ActionForceDeleteNonDS`
(model.go:230). -/
def deleteNonDaemonsetPods (cl : Cluster) (selectedNodeName : String) (log : List Effect) :
    CmdResult :=
  match cl.PodsList log selectedNodeName with
  | .error err =>
    .ok (some (Msg.error ("failed to get pods on node " ++ selectedNodeName ++ ": " ++ err)),
         log ++ [Effect.PodsList selectedNodeName])
  | .ok items =>
    .ok (none, deleteNonDaemonsetLoop cl items (log ++ [Effect.PodsList selectedNodeName]))

/-- The closure appended after the deletes in state `confirmPod`
(model.go:328): it sets `quitting` on its own copy of the model and returns
nil. -/
def markQuitting (log : List Effect) : CmdResult := .ok (none, log)

/-- Runs the body of a command closure. -/
def runWork (cl : Cluster) : Work → List Effect → CmdResult
  | .getNodes, log => getNodes (some cl) log
  | .getPods nodeName, log => getPods cl nodeName log
  | .deletePod nspace name, log => deletePod cl nspace name log
  | .drainNode selectedNode selectedNodeName, log => drainNode cl selectedNode selectedNodeName log
  | .deleteNonDaemonsetPods selectedNodeName, log => deleteNonDaemonsetPods cl selectedNodeName log
  | .markQuitting, log => markQuitting log

/-- How the runtime executes `tea.Sequence(cmds...)`: one command at a time,
in order, whatever the earlier ones returned; every non-nil result is sent to
the program as a message. -/
def runSequence (cl : Cluster) : List Work → List Effect → Except String (List Msg × List Effect)
  | [], log => .ok ([], log)
  | w :: rest, log =>
    match runWork cl w log with
    | .error p => .error p
    | .ok (msg, log1) =>
      match runSequence cl rest log1 with
      | .error p => .error p
      | .ok (msgs, log2) => .ok (msg.toList ++ msgs, log2)

/-- The operation menu, built with the same four entries at every place
where `Update` enters or re-enters `selectAction`. -/
def actionItems : List Item :=
  [Item.ofItem ⟨ActionForceDrainNode, DescDrainNode⟩,
   Item.ofItem ⟨ActionForceDeleteNonDS, DescForceDeleteNonDS⟩,
   Item.ofItem ⟨ActionForceDeleteSelected, DescForceDeleteSelected⟩,
   Item.ofItem ⟨ActionBack, DescBack⟩]

/-- The two entries of a confirmation screen. -/
def confirmItems (yesDesc : String) : List Item :=
  [Item.ofItem ⟨ConfirmYes, yesDesc⟩, Item.ofItem ⟨ConfirmNo, DescCancelBack⟩]

/-- What one call of `Update` gives: a panic, or the new model, the command
returned and the log of effects after the call. -/
abbrev Step (kit : Toolkit) := Except String (model kit × Cmd × List Effect)

/-- The loop of model.go:276 that flips `selected` on the first pod of
`m.pods` with the given name and namespace. -/
def flipSelected (name nspace : String) : List podInfo → List podInfo
  | [] => []
  | p :: rest =>
    if p.name = name ∧ p.nspace = nspace then { p with selected := !p.selected } :: rest
    else p :: flipSelected name nspace rest

/-- The toggle of model.go:291 on the selection map. -/
def toggleSelected (selectedPods : List (String × podInfo)) (key : String) (pod : podInfo) :
    List (String × podInfo) :=
  if selectedPods.any (fun kv => kv.1 = key) then
    selectedPods.filter (fun kv => kv.1 ≠ key)
  else
    selectedPods ++ [(key, pod)]

/-- What the cordon statements of `Update` give when they do not panic. -/
inductive Cordoned (kit : Toolkit) where
  | failed (m : model kit) (log : List Effect)
  | done (m : model kit) (log : List Effect)

/-- The statements that `Update` runs at model.go:161, 212 and 317:
`RunCordonOrUncordon(drainer, m.selectedNode, true)`, which panics on a nil
node (the helper reads the node before anything else); on an error `m.err`
is set (`failed`, and `Update` returns `m, nil`); otherwise the success line
is printed, which reads `m.selectedNode.Name` (`done`). -/
def cordonSelectedNode (kit : Toolkit) (cl : Cluster) (m : model kit) (log : List Effect) :
    Except String (Cordoned kit) :=
  match m.selectedNode with
  | none => .error "nil pointer dereference"
  | some node =>
    let log1 := log ++ [Effect.RunCordonOrUncordon (some node) true]
    let node1 := cl.cordonWrites log node true
    let m1 := { m with selectedNode := some node1 }
    match cl.RunCordonOrUncordon log (some node) true with
    | some err => .ok (Cordoned.failed { m1 with err := some err } log1)
    | none =>
      .ok (Cordoned.done m1
             (log1 ++ [Effect.Printf ("Successfully cordoned node " ++ node1.Name ++ "\n")]))

/-- Case `StateSelectNode` of the state switch (model.go:96). -/
def updateSelectNode (kit : Toolkit) (cl : Cluster) (m : model kit) (cmd : Cmd)
    (log : List Effect) (msg : Msg) : Step kit :=
  match msg with
  | .KeyMsg s =>
    if s = KeyC then
      match kit.SelectedItem m.list with
      | none => .ok (m, cmd, log)
      | some (.ofNode node) =>
        let r := getNode cl log node.name
        let action := if !node.schedulable then MsgUncordon else MsgCordon
        .ok ({ m with
                selectedNodeName := node.name
                selectedNode := r.1.1
                state := StateConfirmToggle
                list := createList kit (confirmItems ("Confirm " ++ action ++ " node " ++ node.name))
                          ("Confirm " ++ action ++ " Operation") m.width m.height },
             Cmd.nil, r.2)
      | some _ => .error "interface conversion: list.Item is not nodeInfo"
    else if s = KeyEnter then
      match kit.SelectedItem m.list with
      | none => .ok (m, cmd, log)
      | some (.ofNode node) =>
        let r := getNode cl log node.name
        .ok ({ m with
                selectedNodeName := node.name
                selectedNode := r.1.1
                state := StateSelectAction
                list := createList kit actionItems "Select Operation" m.width m.height },
             cmd, r.2)
      | some _ => .error "interface conversion: list.Item is not nodeInfo"
    else .ok (m, cmd, log)
  | _ => .ok (m, cmd, log)

/-- Case `StateSelectAction` of the state switch (model.go:132). -/
def updateSelectAction (kit : Toolkit) (m : model kit) (cmd : Cmd)
    (log : List Effect) (msg : Msg) : Step kit :=
  match msg with
  | .KeyMsg s =>
    if s = "enter" then
      match kit.SelectedItem m.list with
      | none => .ok (m, cmd, log)
      | some (.ofItem i) =>
        let m := { m with action := i.Title }
        if m.action = ActionBack then
          .ok ({ m with state := StateSelectNode }, Cmd.work Work.getNodes, log)
        else
          .ok ({ m with
                  state := StateConfirmCordon
                  list := createList kit
                            (confirmItems ("Confirm cordon node " ++ m.selectedNodeName
                                             ++ " before " ++ m.action))
                            "Confirm Cordon Operation" m.width m.height },
               Cmd.nil, log)
      | some _ => .error "interface conversion: list.Item is not item"
    else .ok (m, cmd, log)
  | _ => .ok (m, cmd, log)

/-- Case `StateConfirmCordon` of the state switch (model.go:155).  The
`else if keyMsg.String() == KeyEsc` of model.go:194 belongs to the
`if keyMsg, ok := msg.(tea.KeyMsg); ok`: it is reached for the messages that
are not key messages, where `keyMsg` is the zero key message. -/
def updateConfirmCordon (kit : Toolkit) (cl : Cluster) (m : model kit) (cmd : Cmd)
    (log : List Effect) (msg : Msg) : Step kit :=
  match msg with
  | .KeyMsg s =>
    if s = "enter" then
      match kit.SelectedItem m.list with
      | none => .ok (m, cmd, log)
      | some (.ofItem i) =>
        if i.Title = ConfirmYes then
          match cordonSelectedNode kit cl m log with
          | .error p => .error p
          | .ok (Cordoned.failed m1 log1) => .ok (m1, Cmd.nil, log1)
          | .ok (Cordoned.done m1 log1) =>
            if m1.action = ActionForceDeleteSelected then
              .ok ({ m1 with state := StateSelectPods },
                   Cmd.work (Work.getPods m1.selectedNodeName), log1)
            else
              .ok ({ m1 with
                      state := StateConfirm
                      list := createList kit
                                (confirmItems ("Confirm " ++ m1.action ++ " on node "
                                                 ++ m1.selectedNodeName))
                                "Confirm Operation" m1.width m1.height },
                   Cmd.nil, log1)
        else
          .ok ({ m with
                  state := StateSelectAction
                  list := createList kit actionItems "Select Operation" m.width m.height },
               Cmd.nil, log)
      | some _ => .error "interface conversion: list.Item is not item"
    else .ok (m, cmd, log)
  | _ =>
    if zeroKeyMsgString = KeyEsc then
      .ok ({ m with
              state := StateSelectAction
              list := createList kit actionItems "Select Operation" m.width m.height },
           Cmd.nil, log)
    else .ok (m, cmd, log)

/-- Case `StateConfirm` of the state switch (model.go:206). -/
def updateConfirm (kit : Toolkit) (cl : Cluster) (m : model kit) (cmd : Cmd)
    (log : List Effect) (msg : Msg) : Step kit :=
  match msg with
  | .KeyMsg s =>
    if s = "enter" then
      match kit.SelectedItem m.list with
      | none => .ok (m, cmd, log)
      | some (.ofItem i) =>
        if i.Title = ConfirmYes then
          match cordonSelectedNode kit cl m log with
          | .error p => .error p
          | .ok (Cordoned.failed m1 log1) => .ok (m1, Cmd.nil, log1)
          | .ok (Cordoned.done m1 log1) =>
            if m1.action = ActionForceDrainNode then
              .ok (m1, Cmd.work (Work.drainNode m1.selectedNode m1.selectedNodeName), log1)
            else if m1.action = ActionForceDeleteNonDS then
              .ok (m1, Cmd.work (Work.deleteNonDaemonsetPods m1.selectedNodeName), log1)
            else .ok (m1, cmd, log1)
        else
          .ok ({ m with
                  state := StateSelectAction
                  list := createList kit actionItems "Select Operation" m.width m.height },
               cmd, log)
      | some _ => .error "interface conversion: list.Item is not item"
    else .ok (m, cmd, log)
  | _ => .ok (m, cmd, log)

/-- Case `StateSelectPods` of the state switch (model.go:268). -/
def updateSelectPods (kit : Toolkit) (m : model kit) (cmd : Cmd)
    (log : List Effect) (msg : Msg) : Step kit :=
  match msg with
  | .KeyMsg s =>
    if s = KeySpace then
      match kit.SelectedItem m.list with
      | none => .ok (m, cmd, log)
      | some (.ofPod pod) =>
        let key := pod.nspace ++ "/" ++ pod.name
        let pods := flipSelected pod.name pod.nspace m.pods
        let currentIndex := kit.Index m.list
        let l := kit.SetItems m.list (pods.map Item.ofPod)
        let l := kit.Select l currentIndex
        .ok ({ m with
                pods := pods
                list := l
                selectedPods := toggleSelected m.selectedPods key pod },
             Cmd.nil, log)
      | some _ => .error "interface conversion: list.Item is not podInfo"
    else if s = KeyEnter then
      if m.selectedPods.length > 0 then
        .ok ({ m with
                state := StateConfirmPod
                list := createList kit
                          (confirmItems ("Confirm delete " ++ toString m.selectedPods.length
                                           ++ " selected pods"))
                          "Confirm Pod Deletion" m.width m.height },
             cmd, log)
      else .ok (m, cmd, log)
    else .ok (m, cmd, log)
  | _ => .ok (m, cmd, log)

/-- The commands built at model.go:324: one `deletePod` per entry of the
selection map, in the order of the map iteration, then the closure that
marks the closure's model as quitting. -/
def deleteSelectedCmds (cl : Cluster) (selectedPods : List (String × podInfo)) : List Work :=
  (cl.rangePods selectedPods).map (fun kv => Work.deletePod kv.2.nspace kv.2.name)
    ++ [Work.markQuitting]

/-- Case `StateConfirmPod` of the state switch (model.go:311). -/
def updateConfirmPod (kit : Toolkit) (cl : Cluster) (m : model kit) (cmd : Cmd)
    (log : List Effect) (msg : Msg) : Step kit :=
  match msg with
  | .KeyMsg s =>
    if s = "enter" then
      match kit.SelectedItem m.list with
      | none => .ok (m, cmd, log)
      | some (.ofItem i) =>
        if i.Title = ConfirmYes then
          match cordonSelectedNode kit cl m log with
          | .error p => .error p
          | .ok (Cordoned.failed m1 log1) => .ok (m1, Cmd.nil, log1)
          | .ok (Cordoned.done m1 log1) =>
            .ok (m1, Cmd.Sequence ((deleteSelectedCmds cl m1.selectedPods).map Cmd.work), log1)
        else
          .ok ({ m with
                  state := StateSelectAction
                  list := createList kit actionItems "Select Operation" m.width m.height },
               cmd, log)
      | some _ => .error "interface conversion: list.Item is not item"
    else .ok (m, cmd, log)
  | _ => .ok (m, cmd, log)

/-- Case `StateConfirmToggle` of the state switch (model.go:348). -/
def updateConfirmToggle (kit : Toolkit) (cl : Cluster) (m : model kit) (cmd : Cmd)
    (log : List Effect) (msg : Msg) : Step kit :=
  match msg with
  | .KeyMsg s =>
    if s = KeyEnter then
      match kit.SelectedItem m.list with
      | none => .ok (m, cmd, log)
      | some (.ofItem i) =>
        if i.Title = ConfirmYes then
          match m.selectedNode with
          | none => .error "nil pointer dereference"
          | some node =>
            let desired := !node.Unschedulable
            let log1 := log ++ [Effect.RunCordonOrUncordon (some node) desired]
            let node1 := cl.cordonWrites log node desired
            let m1 := { m with selectedNode := some node1 }
            match cl.RunCordonOrUncordon log (some node) desired with
            | some err => .ok ({ m1 with err := some err }, Cmd.nil, log1)
            | none =>
              let action := if node1.Unschedulable then MsgUncordon else MsgCordon
              .ok ({ m1 with state := StateSelectNode }, Cmd.work Work.getNodes,
                   log1 ++ [Effect.Printf ("Successfully " ++ action ++ "ed node "
                                             ++ node1.Name ++ "\n")])
        else .ok ({ m with state := StateSelectNode }, Cmd.work Work.getNodes, log)
      | some _ => .error "interface conversion: list.Item is not item"
    else if s = KeyEsc then
      .ok ({ m with state := StateSelectNode }, Cmd.work Work.getNodes, log)
    else .ok (m, cmd, log)
  | _ => .ok (m, cmd, log)

/-- Lines 92 to 378 of `Update`: the list widget handles the message, then
the switch on the workflow state. -/
def updateState (kit : Toolkit) (cl : Cluster) (m : model kit) (log : List Effect) (msg : Msg) :
    Step kit :=
  let r := kit.Update m.list msg
  let m := { m with list := r.1 }
  let cmd := Cmd.ofWidget r.2
  match m.state with
  | StateSelectNode => updateSelectNode kit cl m cmd log msg
  | StateSelectAction => updateSelectAction kit m cmd log msg
  | StateConfirmCordon => updateConfirmCordon kit cl m cmd log msg
  | StateConfirm => updateConfirm kit cl m cmd log msg
  | StateSelectPods => updateSelectPods kit m cmd log msg
  | StateConfirmPod => updateConfirmPod kit cl m cmd log msg
  | StateConfirmToggle => updateConfirmToggle kit cl m cmd log msg

/-- Method `Update` of `model`: the type switch on the message
(model.go:52), then `updateState`. -/
def Update (kit : Toolkit) (cl : Cluster) (m : model kit) (log : List Effect) (msg : Msg) :
    Step kit :=
  match msg with
  | .KeyMsg s =>
    if s = "ctrl+c" ∨ s = "q" then
      .ok ({ m with quitting := true }, Cmd.Sequence [Cmd.ExitAltScreen, Cmd.Quit], log)
    else updateState kit cl m log msg
  | .WindowSizeMsg Width Height =>
    let m := { m with width := Width, height := Height }
    match kit.Items m.list with
    | none => .ok (m, Cmd.nil, log)
    | some _ =>
      let hv := kit.GetFrameSize
      updateState kit cl { m with list := kit.SetSize m.list (m.width - hv.1) (m.height - hv.2) }
        log msg
  | .error e => .ok ({ m with err := some e }, Cmd.nil, log)
  | .nodesMsg nodes =>
    .ok ({ m with list := createList kit (nodes.map Item.ofNode) "Select Node" m.width m.height },
         Cmd.nil, log)
  | .podsMsg pods =>
    .ok ({ m with
            pods := pods
            list := createList kit (pods.map Item.ofPod) "Select Pods" m.width m.height },
         Cmd.nil, log)
  | .other _ => updateState kit cl m log msg

/-- Method `View` of `model`. -/
def View (kit : Toolkit) (m : model kit) : String :=
  let help :=
    if m.state = StateSelectPods then
      kit.Render "↑/↓: Navigate • space: Toggle select • enter: Confirm • /: Filter • q: Quit"
    else if m.state = StateSelectNode then
      kit.Render "↑/↓: Navigate • c: Toggle cordon • enter: Select • /: Filter • q: Quit"
    else
      kit.Render "↑/↓: Navigate • enter: Select • esc: Back • /: Filter • q: Quit"
  match m.err with
  | some err => "\nError: " ++ err ++ "\nPress 'q' or Ctrl+C to exit\n"
  | none =>
    if m.quitting then "Operation completed. Goodbye!\n"
    else
      let status :=
        match m.state with
        | StateSelectNode =>
          if ((kit.Items m.list).getD []).length = 0 then kit.spinnerView ++ " Loading nodes..."
          else ""
        | StateSelectPods =>
          if ((kit.Items m.list).getD []).length = 0 then kit.spinnerView ++ " Loading pods..."
          else ""
        | _ => ""
      if status ≠ "" then "\n" ++ status ++ "\n"
      else "\n" ++ kit.listView m.list ++ "\n" ++ help

/-- The command closures of this repository that a command dispatches
(directly, or as members of a `Sequence` or `Batch`). -/
def Cmd.dispatched : Cmd → List Work
  | .work w => [w]
  | .Sequence cmds => cmds.filterMap fun c => match c with
    | .work w => some w
    | _ => none
  | .Batch cmds => cmds.filterMap fun c => match c with
    | .work w => some w
    | _ => none
  | _ => []

/-- Feeds messages to `Update` one after the other; gives the last model,
the commands returned (one per message, in order) and the log. -/
def runMsgs (kit : Toolkit) (cl : Cluster) :
    model kit → List Effect → List Msg → Except String (model kit × List Cmd × List Effect)
  | m, log, [] => .ok (m, [], log)
  | m, log, msg :: rest =>
    match Update kit cl m log msg with
    | .error p => .error p
    | .ok (m1, cmd, log1) =>
      match runMsgs kit cl m1 log1 rest with
      | .error p => .error p
      | .ok (m2, cmds, log2) => .ok (m2, cmd :: cmds, log2)

/-! ## A concrete toolkit and cluster, to run the program on inputs -/

/-- A list widget reduced to its items and a cursor. -/
structure PlainList where
  items : List Item
  cursor : Nat
  title : String
  width : Int
  height : Int
deriving DecidableEq, Repr

/-- A toolkit whose list widget moves the cursor on "up" and "down" and
ignores every other message. -/
def plainKit : Toolkit where
  ListModel := PlainList
  New items width height := ⟨items, 0, "", width, height⟩
  SetShowStatusBar l _ := l
  SetFilteringEnabled l _ := l
  setTitle l title := { l with title := title }
  setTitleStyle l := l
  Update l msg :=
    match msg with
    | .KeyMsg s =>
      if s = "down" then
        ({ l with cursor := if l.cursor + 1 < l.items.length then l.cursor + 1 else l.cursor },
         WidgetCmd.nil)
      else if s = "up" then ({ l with cursor := l.cursor - 1 }, WidgetCmd.nil)
      else (l, WidgetCmd.nil)
    | _ => (l, WidgetCmd.nil)
  SelectedItem l := l.items.get? l.cursor
  Items l := some l.items
  Index l := l.cursor
  SetItems l items := { l with items := items }
  Select l i := { l with cursor := i }
  SetSize l width height := { l with width := width, height := height }
  listView l := l.title
  GetFrameSize := (4, 2)
  Render s := s
  spinnerView := "."

/-- The node `worker-1`, schedulable. -/
def worker1 : Node :=
  { Name := "worker-1", Labels := [], Unschedulable := false,
    Conditions := [⟨"Ready", "True"⟩], KubeletVersion := "v1.30.0",
    Addresses := ["10.0.0.1"], CreationTimestamp := 0 }

/-- The row of `worker-1` in the node list. -/
def worker1Info : nodeInfo :=
  { name := "worker-1", status := "Ready", schedulable := true, roles := ["<none>"],
    age := 0, version := "v1.30.0", internal := "10.0.0.1", conditions := ["Ready"] }

/-- A plain pod `ns1/name` without owner. -/
def plainPod (name : String) : Pod :=
  { Name := name, Namespace := "ns1", OwnerReferences := [], Phase := "Running",
    CreationTimestamp := 0 }

/-- A cluster with the single node `worker-1` hosting `ns1/pod-a` and
`ns1/pod-b`, where cordon succeeds and marks the node record, and every
drain and every pod deletion fails; maps are iterated in insertion order. -/
def failingCluster : Cluster where
  NodesList _ := .ok [worker1]
  NodesGet _ name := if name = "worker-1" then .ok worker1 else .error "not found"
  PodsList _ _ := .ok [plainPod "pod-a", plainPod "pod-b"]
  PodsDelete _ _ _ := some "forbidden"
  RunCordonOrUncordon _ _ _ := none
  cordonWrites _ node desired := { node with Unschedulable := desired }
  RunNodeDrain _ _ := some "timeout"
  Since _ _ := 0
  Round d _ := d
  rangePods l := l
  rangeLabels l := l

/-- The key presses and results of a session that selects `worker-1`, chooses
"Force Drain node" and answers Yes at both confirmation screens. -/
def drainSession : List Msg :=
  [Msg.nodesMsg [worker1Info], Msg.KeyMsg "enter", Msg.KeyMsg "enter", Msg.KeyMsg "enter",
   Msg.KeyMsg "enter"]

/-- The record of `worker-1` once cordoned. -/
def worker1Cordoned : Node := { worker1 with Unschedulable := true }

/-- The row of `ns1/pod-a` in the pod list, as `getPods` builds it. -/
def podA : podInfo := toPodInfo failingCluster [] (plainPod "pod-a")

/-- The row of `ns1/pod-b` in the pod list, as `getPods` builds it. -/
def podB : podInfo := toPodInfo failingCluster [] (plainPod "pod-b")

/-- The keys `ns1/pod-a` and `ns1/pod-b` with their rows, in this order. -/
def twoKeys : List (String × podInfo) := [("ns1/pod-a", podA), ("ns1/pod-b", podB)]

/-- The pod deletions of a log, as (namespace, name), in the order issued. -/
def deleteCalls (log : List Effect) : List (String × String) :=
  log.filterMap fun e => match e with
    | .PodsDelete nspace name => some (nspace, name)
    | _ => none

/-- The lines printed in a log, in order. -/
def printedLines (log : List Effect) : List String :=
  log.filterMap fun e => match e with
    | .Printf line => some line
    | _ => none

/-- Whether an effect is a pod deletion or a printed line. -/
def Effect.isDeleteOrPrint : Effect → Bool
  | .PodsDelete _ _ => true
  | .Printf _ => true
  | _ => false

/-- A pod `ns1/name` owned by a daemon set. -/
def daemonPod (name : String) : Pod :=
  { Name := name, Namespace := "ns1", OwnerReferences := [⟨"ds", "DaemonSet"⟩],
    Phase := "Running", CreationTimestamp := 0 }

/-- The cluster `failingCluster` with the daemon-set pod `ns1/ds-x` listed
between the two plain pods. -/
def mixedCluster : Cluster :=
  { failingCluster with
      PodsList := fun _ _ => .ok [plainPod "pod-a", daemonPod "ds-x", plainPod "pod-b"] }

/-- A model on the Confirm screen for "Force delete non-daemonset pods" on
`worker-1`, with Yes highlighted. -/
def confirmNonDSModel : model plainKit :=
  { initialModel plainKit none with
      state := StateConfirm
      action := ActionForceDeleteNonDS
      selectedNodeName := "worker-1"
      selectedNode := some worker1Cordoned
      list := createList plainKit
                (confirmItems "Confirm Force delete non-daemonset pods on node worker-1")
                "Confirm Operation" 80 24 }

/-- The cluster `failingCluster` on which the Go runtime iterates maps in the
reverse of the insertion order. -/
def reversingCluster : Cluster :=
  { failingCluster with rangePods := List.reverse }

/-- The key presses and results of a session that selects `worker-1`, chooses
"Force delete selected pods", answers Yes to the cordon, receives the pod
list, toggles `ns1/pod-a` and then `ns1/pod-b`, and presses Enter. -/
def selectPodsSession : List Msg :=
  [Msg.nodesMsg [worker1Info], Msg.KeyMsg "enter", Msg.KeyMsg "down", Msg.KeyMsg "down",
   Msg.KeyMsg "enter", Msg.KeyMsg "enter", Msg.podsMsg [podA, podB], Msg.KeyMsg " ",
   Msg.KeyMsg "down", Msg.KeyMsg " ", Msg.KeyMsg "enter"]

/-- A model on the ConfirmPod screen of `worker-1` with `ns1/pod-a` and
`ns1/pod-b` selected and Yes highlighted. -/
def confirmPodModel : model plainKit :=
  { initialModel plainKit none with
      state := StateConfirmPod
      action := ActionForceDeleteSelected
      selectedNodeName := "worker-1"
      selectedNode := some worker1Cordoned
      selectedPods := twoKeys
      list := createList plainKit (confirmItems "Confirm delete 2 selected pods")
                "Confirm Pod Deletion" 80 24 }

/-- The session `selectPodsSession` continued: No on the ConfirmPod screen
(back to the operation menu), "Force delete selected pods" again, Yes to the
cordon, and the freshly fetched pod list. -/
def reselectSession : List Msg :=
  selectPodsSession ++
    [Msg.KeyMsg "down", Msg.KeyMsg "enter", Msg.KeyMsg "down", Msg.KeyMsg "down",
     Msg.KeyMsg "enter", Msg.KeyMsg "enter", Msg.podsMsg [podA, podB]]

/-- The selection invariant of the data model: a key is in the selection map
if and only if a pod of the active pod list with that namespace and name is
marked selected. -/
def selectionConsistent {kit : Toolkit} (m : model kit) : Prop :=
  ∀ key, key ∈ m.selectedPods.map Prod.fst ↔
    ∃ p ∈ m.pods, p.nspace ++ "/" ++ p.name = key ∧ p.selected = true

/-- The cordon calls of a log (`RunCordonOrUncordon` with desired = true):
the node each was made on, in order. -/
def cordonCalls (log : List Effect) : List (Option Node) :=
  log.filterMap fun e => match e with
    | .RunCordonOrUncordon node true => some node
    | _ => none

/-- Whether a command closure changes the cluster's workloads: a pod
deletion, a drain, or the non-daemonset delete. -/
def Work.destructive : Work → Bool
  | .deletePod _ _ => true
  | .drainNode _ _ => true
  | .deleteNonDaemonsetPods _ => true
  | _ => false

/-- Whether a command is a destructive dispatch. -/
def Cmd.destructive (c : Cmd) : Bool := c.dispatched.any Work.destructive

/-- Whether a list of commands, one per `Update` step, ends in its first
destructive dispatch. -/
def endsInFirstDispatch : List Cmd → Bool
  | [] => false
  | [c] => c.destructive
  | c :: rest => !c.destructive && endsInFirstDispatch rest

/-- Whether a message, arriving in model `m`, keeps to the confirmed path:
an Enter on the operation menu does not choose "Back", and an Enter on a
confirmation screen (ConfirmCordon, Confirm, ConfirmPod) is on Yes.  The
highlighted entry is read after the list widget has handled the key, as
`Update` does. -/
def answersYes (kit : Toolkit) (m : model kit) (msg : Msg) : Bool :=
  match msg with
  | .KeyMsg s =>
    if s = "enter" then
      match kit.SelectedItem (kit.Update m.list msg).1 with
      | some (.ofItem i) =>
        match m.state with
        | StateSelectAction => i.Title ≠ ActionBack
        | StateConfirmCordon => i.Title = ConfirmYes
        | StateConfirm => i.Title = ConfirmYes
        | StateConfirmPod => i.Title = ConfirmYes
        | _ => true
      | _ => true
    else true
  | _ => true

/-- Whether every message of a run keeps to the confirmed path. -/
def confirmedPath (kit : Toolkit) (cl : Cluster) : model kit → List Effect → List Msg → Bool
  | _, _, [] => true
  | m, log, msg :: rest =>
    answersYes kit m msg &&
      match Update kit cl m log msg with
      | .error _ => true
      | .ok (m1, _, log1) => confirmedPath kit cl m1 log1 rest

/-- The number of cordon calls that separate a model on the confirmed path
from its destructive dispatch; `none` where no dispatch lies ahead on that
path (outside the five screens of the path, on a Confirm screen whose action
is not a dispatching one, on a ConfirmPod screen without selection). -/
def callsToDispatch {kit : Toolkit} (m : model kit) : Option Nat :=
  match m.state with
  | StateSelectAction => some 2
  | StateConfirmCordon => some 2
  | StateConfirm =>
    if m.action = ActionForceDrainNode ∨ m.action = ActionForceDeleteNonDS then some 1 else none
  | StateSelectPods => some 1
  | StateConfirmPod => if m.selectedPods = [] then none else some 1
  | _ => none

/-- A Confirm or ConfirmPod screen from which the confirmed path dispatches
nothing. -/
def stuck {kit : Toolkit} (m : model kit) : Prop :=
  (m.state = StateConfirm ∨ m.state = StateConfirmPod) ∧ callsToDispatch m = none

/-- What one `Update` step on the confirmed path does, seen from a model that
is `k` cordon calls away from its dispatch: either it makes one cordon call,
prints its success line and returns the destructive dispatch (then `k = 1`);
or it returns no destructive dispatch, makes `c < k` cordon calls and leaves
a model `k - c` calls away, or leaves a stuck model. -/
def StepOk {kit : Toolkit} (log : List Effect) (k : Nat)
    (r : model kit × Cmd × List Effect) : Prop :=
  (r.2.1.destructive = true ∧ k = 1 ∧
      ∃ n line, r.2.2 = log ++ [Effect.RunCordonOrUncordon n true, Effect.Printf line])
  ∨ (r.2.1.destructive = false ∧
      ∃ es, r.2.2 = log ++ es ∧
        ((cordonCalls es).length < k ∧
            callsToDispatch r.1 = some (k - (cordonCalls es).length)
          ∨ stuck r.1))

/-- A model on the operation menu of `worker-1`, "Force Drain node"
highlighted. -/
def selectActionModel : model plainKit :=
  { initialModel plainKit none with
      state := StateSelectAction
      selectedNodeName := "worker-1"
      selectedNode := some worker1
      list := createList plainKit actionItems "Select Operation" 80 24 }

/-- How the runtime hands the result of a command to the program: a nil
result is dropped, any other result is a message for `Update`. -/
def deliver (kit : Toolkit) (cl : Cluster) (m : model kit) (log : List Effect)
    (res : Option Msg) : Step kit :=
  match res with
  | none => .ok (m, Cmd.nil, log)
  | some msg => Update kit cl m log msg

/-- Runs a dispatched command closure to its end and hands its result to the
program. -/
def complete (kit : Toolkit) (cl : Cluster) (m : model kit) (log : List Effect) (w : Work) :
    Step kit :=
  match runWork cl w log with
  | .error p => .error p
  | .ok (res, log1) => deliver kit cl m log1 res

/-- A session followed by the completion of a command closure. -/
def sessionThenComplete (kit : Toolkit) (cl : Cluster) (m : model kit) (log : List Effect)
    (msgs : List Msg) (w : Work) : Step kit :=
  match runMsgs kit cl m log msgs with
  | .error p => .error p
  | .ok (m1, _, log1) => complete kit cl m1 log1 w

/-- The panic of a computation, if it panicked. -/
def panicOf {α : Type} (r : Except String α) : Option String :=
  match r with
  | .error p => some p
  | .ok _ => none

/-- The cluster `failingCluster` on which drains and pod deletions succeed. -/
def healthyCluster : Cluster :=
  { failingCluster with
      RunNodeDrain := fun _ _ => none
      PodsDelete := fun _ _ _ => none }

/-- The cluster `failingCluster` on which fetching a single node fails. -/
def unreachableCluster : Cluster :=
  { failingCluster with NodesGet := fun _ _ => .error "connection refused" }

/-- The cluster `failingCluster` on which cordon and uncordon are refused. -/
def deniedCluster : Cluster :=
  { failingCluster with RunCordonOrUncordon := fun _ _ _ => some "denied" }

/-- The key presses and results of a session that selects `worker-1`, chooses
"Force delete non-daemonset pods" and answers Yes at both confirmation
screens. -/
def deleteNonDSSession : List Msg :=
  [Msg.nodesMsg [worker1Info], Msg.KeyMsg "enter", Msg.KeyMsg "down", Msg.KeyMsg "enter",
   Msg.KeyMsg "enter", Msg.KeyMsg "enter"]

/-- The help line of the screens other than SelectNode and SelectPods. -/
def genericHelp : String :=
  "↑/↓: Navigate • enter: Select • esc: Back • /: Filter • q: Quit"

/-- Whether a command is nil. -/
def Cmd.isNil : Cmd → Bool
  | .nil => true
  | _ => false

/-- The ConfirmToggle screen that `Update` builds on c in state `selectNode`
with the row `row` highlighted, when the node fetch gave `fetched` (`none`
when it failed). -/
def toggleScreen (kit : Toolkit) (m : model kit) (row : nodeInfo) (fetched : Option Node) :
    model kit :=
  { m with
      selectedNodeName := row.name
      selectedNode := fetched
      state := StateConfirmToggle
      list := createList kit
                (confirmItems ("Confirm " ++ (if !row.schedulable then MsgUncordon else MsgCordon)
                                 ++ " node " ++ row.name))
                ("Confirm " ++ (if !row.schedulable then MsgUncordon else MsgCordon)
                   ++ " Operation") m.width m.height }

/-- A model on the node list with the single row of `worker-1`
highlighted. -/
def nodeListModel : model plainKit :=
  { initialModel plainKit none with
      list := createList plainKit [Item.ofNode worker1Info] "Select Node" 80 24 }

/-- The key presses and results of a session that highlights `worker-1`,
presses c and answers Yes on the ConfirmToggle screen. -/
def toggleSession : List Msg :=
  [Msg.nodesMsg [worker1Info], Msg.KeyMsg "c", Msg.KeyMsg "enter"]

/-- Whether the messages `msgs`, arriving from model `m`, press space exactly
on the pods `ps`, in this order: every space finds the next pod of `ps`
highlighted (read after the list widget has handled the key, as `Update`
does), no message is an Enter, and no step panics.  Any other message
(navigation keys, resizes, results) may come in between. -/
def togglesPods (kit : Toolkit) (cl : Cluster) :
    model kit → List Effect → List Msg → List podInfo → Bool
  | _, _, [], ps => ps.isEmpty
  | m, log, msg :: rest, ps =>
    match Update kit cl m log msg with
    | .error _ => false
    | .ok (m1, _, log1) =>
      match msg with
      | .KeyMsg s =>
        if s = KeySpace then
          match ps with
          | [] => false
          | p :: ps1 =>
            decide (kit.SelectedItem (kit.Update m.list msg).1 = some (Item.ofPod p))
              && togglesPods kit cl m1 log1 rest ps1
        else if s = KeyEnter then false
        else togglesPods kit cl m1 log1 rest ps
      | _ => togglesPods kit cl m1 log1 rest ps

/-- A model on the pod-selection screen of `worker-1` listing `ns1/pod-a`
and `ns1/pod-b`, nothing selected, `ns1/pod-a` highlighted. -/
def selectPodsModel : model plainKit :=
  { initialModel plainKit none with
      state := StateSelectPods
      action := ActionForceDeleteSelected
      selectedNodeName := "worker-1"
      selectedNode := some worker1Cordoned
      pods := [podA, podB]
      list := createList plainKit [Item.ofPod podA, Item.ofPod podB] "Select Pods" 80 24 }

/-- The model that `Update` returns on space in state `selectPods` with `pod`
highlighted (model.go:272-296): the pod's mark flipped in `m.pods`, the list
refreshed at the same index, and the selection map toggled at the pod's
key. -/
def spaceToggled (kit : Toolkit) (m : model kit) (pod : podInfo) : model kit :=
  { m with
      pods := flipSelected pod.name pod.nspace m.pods
      list := kit.Select
                (kit.SetItems (kit.Update m.list (Msg.KeyMsg " ")).1
                   ((flipSelected pod.name pod.nspace m.pods).map Item.ofPod))
                (kit.Index (kit.Update m.list (Msg.KeyMsg " ")).1)
      selectedPods := toggleSelected m.selectedPods (pod.nspace ++ "/" ++ pod.name) pod }

/-- The ConfirmToggle screen of `worker-1` after "down": No highlighted. -/
def toggleScreenOnNo : model plainKit :=
  { toggleScreen plainKit nodeListModel worker1Info (some worker1) with
      list := (plainKit.Update (toggleScreen plainKit nodeListModel worker1Info (some worker1)).list
                 (Msg.KeyMsg "down")).1 }

/-! ## Theorems -/

/-- C1 (the code departs from the claim): on `failingCluster` the session
`drainSession` dispatches the drain, whose result is an error; `Update`
stores it in `err` and `View` shows the error screen asking to quit.  A
further Enter is nevertheless handled as on the Confirm screen: `Update`
makes another cordon call and dispatches the drain again. -/
theorem C1_update_continues_after_error :
    (runMsgs plainKit failingCluster (initialModel plainKit none) [] drainSession).toOption.map
        (fun r => (r.1.state, r.1.err, r.2.1.getLast?.map Cmd.dispatched))
      = some (StateConfirm, none, some [Work.drainNode (some worker1Cordoned) "worker-1"])
    ∧ (runWork failingCluster (Work.drainNode (some worker1Cordoned) "worker-1") []).toOption.map
        (fun r => r.1)
      = some (some (Msg.error "failed to drain node worker-1: timeout"))
    ∧ (runMsgs plainKit failingCluster (initialModel plainKit none) []
        (drainSession ++ [Msg.error "failed to drain node worker-1: timeout"])).toOption.map
        (fun r => (r.1.state, r.1.err, View plainKit r.1))
      = some (StateConfirm, some "failed to drain node worker-1: timeout",
          "\nError: failed to drain node worker-1: timeout\nPress 'q' or Ctrl+C to exit\n")
    ∧ (runMsgs plainKit failingCluster (initialModel plainKit none) []
        (drainSession ++ [Msg.error "failed to drain node worker-1: timeout",
                          Msg.KeyMsg "enter"])).toOption.map
        (fun r => (r.2.1.getLast?.map Cmd.dispatched, r.2.2.drop 5))
      = some (some [Work.drainNode (some worker1Cordoned) "worker-1"],
          [Effect.RunCordonOrUncordon (some worker1Cordoned) true,
           Effect.Printf "Successfully cordoned node worker-1\n"]) := by
  refine ⟨?_, ?_, ?_, ?_⟩ <;> decide

/-- C6: in every model (any state, any `err`, list, action and selection),
`Update` on ctrl+c and on q sets `quitting`, returns exactly
`tea.Sequence(tea.ExitAltScreen, tea.Quit)` and leaves the log of cluster
calls and every other field of the model as they were. -/
theorem C6_quit_key_terminates (kit : Toolkit) (cl : Cluster) (m : model kit)
    (log : List Effect) :
    Update kit cl m log (Msg.KeyMsg "ctrl+c")
        = .ok ({ m with quitting := true }, Cmd.Sequence [Cmd.ExitAltScreen, Cmd.Quit], log)
    ∧ Update kit cl m log (Msg.KeyMsg "q")
        = .ok ({ m with quitting := true }, Cmd.Sequence [Cmd.ExitAltScreen, Cmd.Quit], log) := by
  constructor <;> simp [Update]

/-- C7 (the code departs from the claim): in state `confirmCordon`, `Update`
on esc leaves the state `confirmCordon`: the model changes only by what the
list widget does with the key, the command is the widget's, and no call is
made.  In state `confirmToggle` the same key does go back (to `selectNode`,
with a re-fetch). -/
theorem C7_esc_stays_in_confirmCordon (kit : Toolkit) (cl : Cluster) (m : model kit)
    (log : List Effect) :
    Update kit cl { m with state := StateConfirmCordon } log (Msg.KeyMsg "esc")
        = .ok ({ m with state := StateConfirmCordon
                        list := (kit.Update m.list (Msg.KeyMsg "esc")).1 },
               Cmd.ofWidget (kit.Update m.list (Msg.KeyMsg "esc")).2, log)
    ∧ Update kit cl { m with state := StateConfirmToggle } log (Msg.KeyMsg "esc")
        = .ok ({ m with state := StateSelectNode
                        list := (kit.Update m.list (Msg.KeyMsg "esc")).1 },
               Cmd.work Work.getNodes, log) := by
  constructor <;>
    simp [Update, updateState, updateConfirmCordon, updateConfirmToggle, KeyEnter, KeyEsc]

/-- C5: when the node list call answers with zero items, the message of
`getNodes` is the error "no nodes found in the cluster" (not a `nodesMsg`);
`Update` on an error message sets `err`, leaves the list (and every other
field) as it was and makes no call; and `View` of the resulting model is the
error screen. -/
theorem C5_zero_nodes_is_error (kit : Toolkit) (cl : Cluster) (m : model kit)
    (log log0 : List Effect) (h : cl.NodesList log0 = .ok []) :
    getNodes (some cl) log0
        = .ok (some (Msg.error "no nodes found in the cluster"), log0 ++ [Effect.NodesList])
    ∧ Update kit cl m log (Msg.error "no nodes found in the cluster")
        = .ok ({ m with err := some "no nodes found in the cluster" }, Cmd.nil, log)
    ∧ View kit { m with err := some "no nodes found in the cluster" }
        = "\nError: no nodes found in the cluster\nPress 'q' or Ctrl+C to exit\n" := by
  refine ⟨?_, ?_, ?_⟩
  · simp [getNodes, h]
  · simp [Update]
  · simp [View]

/-- Witness of C5 on a cluster without nodes. -/
theorem C5_zero_nodes_is_error_witness :
    getNodes (some { failingCluster with NodesList := fun _ => .ok [] }) []
        = .ok (some (Msg.error "no nodes found in the cluster"), [] ++ [Effect.NodesList])
    ∧ Update plainKit { failingCluster with NodesList := fun _ => .ok [] }
          (initialModel plainKit none) [] (Msg.error "no nodes found in the cluster")
        = .ok ({ initialModel plainKit none with err := some "no nodes found in the cluster" },
               Cmd.nil, [])
    ∧ View plainKit { initialModel plainKit none with err := some "no nodes found in the cluster" }
        = "\nError: no nodes found in the cluster\nPress 'q' or Ctrl+C to exit\n" :=
  C5_zero_nodes_is_error plainKit { failingCluster with NodesList := fun _ => .ok [] }
    (initialModel plainKit none) [] [] rfl

/-- Toggling a key that is absent appends its entry. -/
theorem toggleSelected_absent (sp : List (String × podInfo)) (key : String) (pod : podInfo)
    (h : key ∉ sp.map Prod.fst) : toggleSelected sp key pod = sp ++ [(key, pod)] := by
  have : sp.any (fun kv => decide (kv.1 = key)) = false := by
    rw [List.any_eq_false]
    intro kv hkv
    simp only [decide_eq_true_eq]
    intro hk
    exact h (List.mem_map.mpr ⟨kv, hkv, hk⟩)
  simp [toggleSelected, this]

/-- Membership of a key after one toggle: the toggled key flips, every other
key keeps its membership. -/
theorem mem_keys_toggleSelected (sp : List (String × podInfo)) (key : String) (pod : podInfo)
    (k : String) :
    k ∈ (toggleSelected sp key pod).map Prod.fst ↔
      (if k = key then key ∉ sp.map Prod.fst else k ∈ sp.map Prod.fst) := by
  by_cases hmem : key ∈ sp.map Prod.fst
  · have hany : sp.any (fun kv => decide (kv.1 = key)) = true := by
      rw [List.any_eq_true]
      obtain ⟨kv, hkv, hk⟩ := List.mem_map.mp hmem
      exact ⟨kv, hkv, by simpa using hk⟩
    by_cases hk : k = key
    · subst hk
      simp [toggleSelected, hany, hmem]
    · simp only [toggleSelected, hany, if_true, hk, if_false, List.mem_map, List.mem_filter]
      constructor
      · rintro ⟨kv, ⟨hkv, _⟩, rfl⟩
        exact ⟨kv, hkv, rfl⟩
      · rintro ⟨kv, hkv, rfl⟩
        exact ⟨kv, ⟨hkv, by simpa using hk⟩, rfl⟩
  · rw [toggleSelected_absent sp key pod hmem]
    by_cases hk : k = key
    · subst hk
      simp [hmem]
    · simp [hk]

/-- Toggling pairwise distinct keys that are all absent appends them. -/
theorem foldl_toggleSelected_distinct (ks sp : List (String × podInfo))
    (hnodup : (ks.map Prod.fst).Nodup)
    (hdisj : ∀ k ∈ ks.map Prod.fst, k ∉ sp.map Prod.fst) :
    ks.foldl (fun s kp => toggleSelected s kp.1 kp.2) sp = sp ++ ks := by
  induction ks generalizing sp with
  | nil => simp
  | cons kp rest ih =>
    have hkp : kp.1 ∉ sp.map Prod.fst := hdisj kp.1 (by simp)
    rw [List.foldl_cons, toggleSelected_absent sp kp.1 kp.2 hkp]
    rw [List.map_cons, List.nodup_cons] at hnodup
    rw [ih (sp ++ [(kp.1, kp.2)]) hnodup.2]
    · simp
    · intro k hk
      simp only [List.map_append, List.map_cons, List.map_nil, List.mem_append,
        List.mem_singleton, not_or]
      refine ⟨hdisj k (by simp [hk]), ?_⟩
      rintro rfl
      exact hnodup.1 hk

/-- The toggle of the selection map by itself: toggling a key twice gives a
selection set with the same key membership as before, whatever the set, the
key and the pod records; and toggling pairwise distinct keys, starting from
the empty set, gives a set with exactly one entry per key toggled. -/
theorem toggleSelected_twice_and_distinct (sp ks : List (String × podInfo)) (key : String)
    (pod pod2 : podInfo) (hnodup : (ks.map Prod.fst).Nodup) :
    (∀ k, k ∈ (toggleSelected (toggleSelected sp key pod) key pod2).map Prod.fst
            ↔ k ∈ sp.map Prod.fst)
    ∧ (ks.foldl (fun s kp => toggleSelected s kp.1 kp.2) []).length = ks.length
    ∧ ((ks.foldl (fun s kp => toggleSelected s kp.1 kp.2) []).map Prod.fst).Nodup := by
  refine ⟨?_, ?_, ?_⟩
  · intro k
    rw [mem_keys_toggleSelected]
    by_cases hk : k = key
    · subst hk
      rw [if_pos rfl, mem_keys_toggleSelected, if_pos rfl, not_not]
    · rw [if_neg hk, mem_keys_toggleSelected, if_neg hk]
  · rw [foldl_toggleSelected_distinct ks [] hnodup (by simp)]
    simp
  · rw [foldl_toggleSelected_distinct ks [] hnodup (by simp)]
    simpa using hnodup

/-- The keys `ns1/pod-a` and `ns1/pod-b` are distinct, and toggling them from
the empty set gives two entries. -/
theorem toggleSelected_twice_and_distinct_example :
    (twoKeys.map Prod.fst).Nodup
    ∧ (twoKeys.foldl (fun s kp => toggleSelected s kp.1 kp.2) []).length = twoKeys.length :=
  ⟨by decide, (toggleSelected_twice_and_distinct [] twoKeys "ns1/pod-a" podA podA (by decide)).2.1⟩

/-- The loop of the non-daemonset delete closure only appends to the log:
one deletion per pod that is not daemon-set owned, in list order, each
followed by one printed line, whatever the deletions answer. -/
theorem deleteNonDaemonsetLoop_spec (cl : Cluster) (pods : List Pod) (log : List Effect) :
    ∃ out, deleteNonDaemonsetLoop cl pods log = log ++ out
      ∧ deleteCalls out
          = (pods.filter fun p => !isDaemonSetPod p).map (fun p => (p.Namespace, p.Name))
      ∧ (printedLines out).length = (deleteCalls out).length
      ∧ ∀ e ∈ out, e.isDeleteOrPrint = true := by
  induction pods generalizing log with
  | nil => exact ⟨[], by simp [deleteNonDaemonsetLoop, deleteCalls, printedLines]⟩
  | cons pod rest ih =>
    by_cases hds : isDaemonSetPod pod = true
    · obtain ⟨out, h1, h2, h3, h4⟩ := ih log
      exact ⟨out, by simp [deleteNonDaemonsetLoop, hds, h1], by simp [hds, h2], h3, h4⟩
    · simp only [Bool.not_eq_true] at hds
      cases hdel : cl.PodsDelete log pod.Namespace pod.Name with
      | none =>
        obtain ⟨out, h1, h2, h3, h4⟩ := ih (log ++ [Effect.PodsDelete pod.Namespace pod.Name,
          Effect.Printf ("Successfully deleted pod " ++ pod.Namespace ++ "/" ++ pod.Name ++ "\n")])
        refine ⟨Effect.PodsDelete pod.Namespace pod.Name ::
          Effect.Printf ("Successfully deleted pod " ++ pod.Namespace ++ "/" ++ pod.Name ++ "\n")
            :: out, ?_, ?_, ?_, ?_⟩
        · simp [deleteNonDaemonsetLoop, hds, hdel, h1]
        · simp only [deleteCalls] at h2 ⊢
          simp [hds, h2]
        · simp only [deleteCalls, printedLines] at h3 ⊢
          simp [h3]
        · intro e he
          simp only [List.mem_cons] at he
          rcases he with rfl | rfl | he
          · rfl
          · rfl
          · exact h4 e he
      | some err =>
        obtain ⟨out, h1, h2, h3, h4⟩ := ih (log ++ [Effect.PodsDelete pod.Namespace pod.Name,
          Effect.Printf ("Failed to delete pod " ++ pod.Namespace ++ "/" ++ pod.Name
            ++ ": " ++ err ++ "\n")])
        refine ⟨Effect.PodsDelete pod.Namespace pod.Name ::
          Effect.Printf ("Failed to delete pod " ++ pod.Namespace ++ "/" ++ pod.Name
            ++ ": " ++ err ++ "\n") :: out, ?_, ?_, ?_, ?_⟩
        · simp [deleteNonDaemonsetLoop, hds, hdel, h1]
        · simp only [deleteCalls] at h2 ⊢
          simp [hds, h2]
        · simp only [deleteCalls, printedLines] at h3 ⊢
          simp [h3]
        · intro e he
          simp only [List.mem_cons] at he
          rcases he with rfl | rfl | he
          · rfl
          · rfl
          · exact h4 e he

/-- C8: in state `confirm` with action "Force delete non-daemonset pods",
Enter on Yes (cordon succeeding) returns the non-daemonset delete command for
the selected node; and whenever that command runs and the pod list call
answers `pods`, it issues one delete call for exactly the pods for which
`isDaemonSetPod` is false, in list order, prints one line per attempted
delete, makes no other call, and returns nil (never an error), whatever the
delete calls answer. -/
theorem C8_nonDaemonset_delete_calls (kit : Toolkit) (cl : Cluster) (m : model kit)
    (log log2 : List Effect) (desc : String) (node : Node) (pods : List Pod)
    (hstate : m.state = StateConfirm) (haction : m.action = ActionForceDeleteNonDS)
    (hyes : kit.SelectedItem (kit.Update m.list (Msg.KeyMsg "enter")).1
              = some (Item.ofItem ⟨ConfirmYes, desc⟩))
    (hnode : m.selectedNode = some node)
    (hcordon : cl.RunCordonOrUncordon log m.selectedNode true = none)
    (hpods : cl.PodsList log2 m.selectedNodeName = .ok pods) :
    Update kit cl m log (Msg.KeyMsg "enter")
        = .ok ({ m with list := (kit.Update m.list (Msg.KeyMsg "enter")).1
                        selectedNode := some (cl.cordonWrites log node true) },
               Cmd.work (Work.deleteNonDaemonsetPods m.selectedNodeName),
               log ++ [Effect.RunCordonOrUncordon (some node) true,
                       Effect.Printf ("Successfully cordoned node "
                         ++ (cl.cordonWrites log node true).Name ++ "\n")])
    ∧ ∃ out, runWork cl (Work.deleteNonDaemonsetPods m.selectedNodeName) log2
          = .ok (none, log2 ++ Effect.PodsList m.selectedNodeName :: out)
        ∧ deleteCalls out
            = (pods.filter fun p => !isDaemonSetPod p).map (fun p => (p.Namespace, p.Name))
        ∧ (printedLines out).length = (deleteCalls out).length
        ∧ ∀ e ∈ out, e.isDeleteOrPrint = true := by
  constructor
  · rw [hnode] at hcordon
    simp [Update, updateState, hstate, updateConfirm, hyes, item.Title, cordonSelectedNode,
      hcordon, hnode, haction, ActionForceDeleteNonDS, ActionForceDrainNode]
  · obtain ⟨out, h1, h2, h3, h4⟩ :=
      deleteNonDaemonsetLoop_spec cl pods (log2 ++ [Effect.PodsList m.selectedNodeName])
    refine ⟨out, ?_, h2, h3, h4⟩
    simp [runWork, deleteNonDaemonsetPods, hpods, h1]

/-- Witness of C8: on `worker-1` hosting the plain pod `ns1/pod-a`, the
daemon-set pod `ns1/ds-x` and the plain pod `ns1/pod-b`, where every delete
call fails, exactly the two plain pods are deleted, in list order, and the
command returns nil. -/
theorem C8_nonDaemonset_delete_calls_witness :
    ∃ out, runWork mixedCluster (Work.deleteNonDaemonsetPods "worker-1") []
          = .ok (none, [] ++ Effect.PodsList "worker-1" :: out)
        ∧ deleteCalls out = [("ns1", "pod-a"), ("ns1", "pod-b")]
        ∧ (printedLines out).length = (deleteCalls out).length
        ∧ ∀ e ∈ out, e.isDeleteOrPrint = true :=
  (C8_nonDaemonset_delete_calls plainKit mixedCluster confirmNonDSModel [] []
    "Confirm Force delete non-daemonset pods on node worker-1" worker1Cordoned
    [plainPod "pod-a", daemonPod "ds-x", plainPod "pod-b"] rfl rfl rfl rfl rfl rfl).2

/-- The repository closures dispatched by a sequence of them. -/
theorem dispatched_Sequence_work (ws : List Work) :
    (Cmd.Sequence (ws.map Cmd.work)).dispatched = ws := by
  simp only [Cmd.dispatched, List.filterMap_map]
  induction ws with
  | nil => rfl
  | cons w rest ih => simp [List.filterMap_cons, ih]

/-- C9 (as stated, refuted): the session `selectPodsSession` toggles
`ns1/pod-a` and then `ns1/pod-b`; on a runtime that iterates the selection
map in the other order, Enter on Yes in ConfirmPod dispatches the delete of
`ns1/pod-b` before the delete of `ns1/pod-a`, which is not the order
toggled. -/
theorem C9_delete_order_counterexample :
    (runMsgs plainKit reversingCluster (initialModel plainKit none) []
        selectPodsSession).toOption.map (fun r => (r.1.state, r.1.selectedPods.map Prod.fst))
      = some (StateConfirmPod, ["ns1/pod-a", "ns1/pod-b"])
    ∧ (runMsgs plainKit reversingCluster (initialModel plainKit none) []
        (selectPodsSession ++ [Msg.KeyMsg "enter"])).toOption.map
        (fun r => r.2.1.getLast?.map Cmd.dispatched)
      = some (some [Work.deletePod "ns1" "pod-b", Work.deletePod "ns1" "pod-a",
                    Work.markQuitting])
    ∧ (runMsgs plainKit reversingCluster (initialModel plainKit none) []
        (selectPodsSession ++ [Msg.KeyMsg "enter"])).toOption.map
        (fun r => r.2.1.getLast?.map Cmd.dispatched)
      ≠ some (some [Work.deletePod "ns1" "pod-a", Work.deletePod "ns1" "pod-b",
                    Work.markQuitting]) := by
  refine ⟨?_, ?_, ?_⟩ <;> decide

/-- C9 (amended): in state `confirmPod`, Enter on Yes with a successful
cordon makes one cordon call and returns the sequence of one `deletePod` per
entry of the selection map, in the order in which the runtime iterates the
map (some permutation of the entries), followed by the closure that marks
quitting; no drain is dispatched. -/
theorem C9_one_delete_per_selected_pod (kit : Toolkit) (cl : Cluster) (m : model kit)
    (log : List Effect) (desc : String) (node : Node)
    (hstate : m.state = StateConfirmPod)
    (hyes : kit.SelectedItem (kit.Update m.list (Msg.KeyMsg "enter")).1
              = some (Item.ofItem ⟨ConfirmYes, desc⟩))
    (hnode : m.selectedNode = some node)
    (hcordon : cl.RunCordonOrUncordon log m.selectedNode true = none)
    (hperm : (cl.rangePods m.selectedPods).Perm m.selectedPods) :
    ∃ (cmd : Cmd) (order : List (String × podInfo)),
      Update kit cl m log (Msg.KeyMsg "enter")
        = .ok ({ m with list := (kit.Update m.list (Msg.KeyMsg "enter")).1
                        selectedNode := some (cl.cordonWrites log node true) },
               cmd,
               log ++ [Effect.RunCordonOrUncordon (some node) true,
                       Effect.Printf ("Successfully cordoned node "
                         ++ (cl.cordonWrites log node true).Name ++ "\n")])
      ∧ order.Perm m.selectedPods
      ∧ cmd = Cmd.Sequence ((order.map fun kv => Cmd.work (Work.deletePod kv.2.nspace kv.2.name))
                              ++ [Cmd.work Work.markQuitting])
      ∧ cmd.dispatched = (order.map fun kv => Work.deletePod kv.2.nspace kv.2.name)
                           ++ [Work.markQuitting]
      ∧ ∀ w ∈ cmd.dispatched, ∀ n s, w ≠ Work.drainNode n s := by
  refine ⟨Cmd.Sequence ((deleteSelectedCmds cl m.selectedPods).map Cmd.work),
    cl.rangePods m.selectedPods, ?_, hperm, ?_, ?_, ?_⟩
  · rw [hnode] at hcordon
    simp [Update, updateState, hstate, updateConfirmPod, hyes, item.Title, cordonSelectedNode,
      hcordon, hnode]
  · simp [deleteSelectedCmds]
  · rw [dispatched_Sequence_work]
    rfl
  · rw [dispatched_Sequence_work]
    intro w hw n s
    simp only [deleteSelectedCmds, List.mem_append, List.mem_map, List.mem_singleton] at hw
    rcases hw with ⟨kv, _, rfl⟩ | rfl <;> simp

/-- Witness of C9 (amended): the ConfirmPod screen of `worker-1` with
`ns1/pod-a` and `ns1/pod-b` selected, on a runtime iterating in insertion
order. -/
theorem C9_one_delete_per_selected_pod_witness :
    ∃ (cmd : Cmd) (order : List (String × podInfo)),
      Update plainKit failingCluster confirmPodModel [] (Msg.KeyMsg "enter")
        = .ok ({ confirmPodModel with
                   list := (plainKit.Update confirmPodModel.list (Msg.KeyMsg "enter")).1
                   selectedNode := some (failingCluster.cordonWrites [] worker1Cordoned true) },
               cmd,
               [] ++ [Effect.RunCordonOrUncordon (some worker1Cordoned) true,
                      Effect.Printf ("Successfully cordoned node "
                        ++ (failingCluster.cordonWrites [] worker1Cordoned true).Name ++ "\n")])
      ∧ order.Perm twoKeys
      ∧ cmd = Cmd.Sequence ((order.map fun kv => Cmd.work (Work.deletePod kv.2.nspace kv.2.name))
                              ++ [Cmd.work Work.markQuitting])
      ∧ cmd.dispatched = (order.map fun kv => Work.deletePod kv.2.nspace kv.2.name)
                           ++ [Work.markQuitting]
      ∧ ∀ w ∈ cmd.dispatched, ∀ n s, w ≠ Work.drainNode n s :=
  C9_one_delete_per_selected_pod plainKit failingCluster confirmPodModel []
    "Confirm delete 2 selected pods" worker1Cordoned rfl rfl rfl rfl (List.Perm.refl _)

/-- Running the sequence built in state `confirmPod` never stops early: every
`deletePod` of the sequence issues its delete call, in order, whatever the
earlier ones answered, and the messages sent to the program are the errors
of the failed ones. -/
theorem runSequence_deletes (cl : Cluster) (entries : List (String × podInfo))
    (log : List Effect) :
    ∃ msgs out,
      runSequence cl ((entries.map fun kv => Work.deletePod kv.2.nspace kv.2.name)
          ++ [Work.markQuitting]) log = .ok (msgs, log ++ out)
      ∧ deleteCalls out = entries.map (fun kv => (kv.2.nspace, kv.2.name))
      ∧ ∀ msg ∈ msgs, ∃ e, msg = Msg.error e := by
  induction entries generalizing log with
  | nil =>
    exact ⟨[], [], by simp [runSequence, runWork, markQuitting], by simp [deleteCalls],
      by simp⟩
  | cons kv rest ih =>
    cases hdel : cl.PodsDelete log kv.2.nspace kv.2.name with
    | none =>
      obtain ⟨msgs, out, h1, h2, h3⟩ := ih (log ++ [Effect.PodsDelete kv.2.nspace kv.2.name,
        Effect.Printf ("Successfully deleted pod " ++ kv.2.nspace ++ "/" ++ kv.2.name ++ "\n")])
      refine ⟨msgs, Effect.PodsDelete kv.2.nspace kv.2.name ::
        Effect.Printf ("Successfully deleted pod " ++ kv.2.nspace ++ "/" ++ kv.2.name ++ "\n")
          :: out, ?_, ?_, h3⟩
      · simp [runSequence, runWork, deletePod, hdel, h1]
      · simp only [deleteCalls] at h2 ⊢
        simp [h2]
    | some err =>
      obtain ⟨msgs, out, h1, h2, h3⟩ := ih (log ++ [Effect.PodsDelete kv.2.nspace kv.2.name])
      refine ⟨Msg.error ("failed to delete pod " ++ kv.2.nspace ++ "/" ++ kv.2.name ++ ": "
        ++ err) :: msgs, Effect.PodsDelete kv.2.nspace kv.2.name :: out, ?_, ?_, ?_⟩
      · simp [runSequence, runWork, deletePod, hdel, h1]
      · simp only [deleteCalls] at h2 ⊢
        simp [h2]
      · intro msg hmsg
        rcases List.mem_cons.mp hmsg with rfl | hmsg
        · exact ⟨_, rfl⟩
        · exact h3 msg hmsg

/-- C10 (the code departs from the claim): on `failingCluster` the delete of
`ns1/pod-a` fails and `deletePod` returns an error message; delivered to
`Update` after the session `selectPodsSession` was confirmed with Yes, it
sets `err`, so `View` is the terminal error screen, while the sequence goes
on to delete `ns1/pod-b`.  The sibling batch, the non-daemonset delete,
meets the same failures by printing one line per pod and returning nil. -/
theorem C10_failed_delete_sets_err :
    (runWork failingCluster (Work.deletePod "ns1" "pod-a") []).toOption
      = some (some (Msg.error "failed to delete pod ns1/pod-a: forbidden"),
              [Effect.PodsDelete "ns1" "pod-a"])
    ∧ (runMsgs plainKit failingCluster (initialModel plainKit none) []
        (selectPodsSession ++ [Msg.KeyMsg "enter"])).toOption.map
        (fun r => (r.1.err, r.2.1.getLast?.map Cmd.dispatched))
      = some (none, some [Work.deletePod "ns1" "pod-a", Work.deletePod "ns1" "pod-b",
                          Work.markQuitting])
    ∧ (runMsgs plainKit failingCluster (initialModel plainKit none) []
        (selectPodsSession ++ [Msg.KeyMsg "enter",
           Msg.error "failed to delete pod ns1/pod-a: forbidden"])).toOption.map
        (fun r => (r.1.err, View plainKit r.1))
      = some (some "failed to delete pod ns1/pod-a: forbidden",
          "\nError: failed to delete pod ns1/pod-a: forbidden\nPress 'q' or Ctrl+C to exit\n")
    ∧ (runSequence failingCluster
        [Work.deletePod "ns1" "pod-a", Work.deletePod "ns1" "pod-b", Work.markQuitting]
        []).toOption
      = some ([Msg.error "failed to delete pod ns1/pod-a: forbidden",
               Msg.error "failed to delete pod ns1/pod-b: forbidden"],
              [Effect.PodsDelete "ns1" "pod-a", Effect.PodsDelete "ns1" "pod-b"])
    ∧ (runWork failingCluster (Work.deleteNonDaemonsetPods "worker-1") []).toOption
      = some (none,
              [Effect.PodsList "worker-1",
               Effect.PodsDelete "ns1" "pod-a",
               Effect.Printf "Failed to delete pod ns1/pod-a: forbidden\n",
               Effect.PodsDelete "ns1" "pod-b",
               Effect.Printf "Failed to delete pod ns1/pod-b: forbidden\n"]) := by
  refine ⟨?_, ?_, ?_, ?_, ?_⟩ <;> decide

/-- Whatever the cluster and the model: a failed delete call makes
`deletePod` return an error message, and `Update` on that message sets `err`
(the terminal error screen); the failure does not stop the batch: running
the sequence built in state `confirmPod` issues the delete call of every
entry of the selection map, in the dispatched order, whatever the single
calls answer. -/
theorem failed_delete_reported_batch_continues (kit : Toolkit) (cl : Cluster)
    (m : model kit) (log log2 : List Effect) (sp : List (String × podInfo))
    (nspace name e : String) (hfail : cl.PodsDelete log2 nspace name = some e) :
    runWork cl (Work.deletePod nspace name) log2
      = .ok (some (Msg.error ("failed to delete pod " ++ nspace ++ "/" ++ name ++ ": " ++ e)),
             log2 ++ [Effect.PodsDelete nspace name])
    ∧ Update kit cl m log
        (Msg.error ("failed to delete pod " ++ nspace ++ "/" ++ name ++ ": " ++ e))
      = .ok ({ m with err := some ("failed to delete pod " ++ nspace ++ "/" ++ name ++ ": " ++ e) },
             Cmd.nil, log)
    ∧ ∃ msgs out, runSequence cl (deleteSelectedCmds cl sp) log2 = .ok (msgs, log2 ++ out)
        ∧ deleteCalls out = (cl.rangePods sp).map (fun kv => (kv.2.nspace, kv.2.name)) := by
  refine ⟨?_, ?_, ?_⟩
  · simp [runWork, deletePod, hfail]
  · simp [Update]
  · obtain ⟨msgs, out, h1, h2, _⟩ := runSequence_deletes cl (cl.rangePods sp) log2
    exact ⟨msgs, out, h1, h2⟩

/-- An instance of the above: the failed delete of `ns1/pod-a` on
`failingCluster`, and the batch of `ns1/pod-a` and `ns1/pod-b`. -/
theorem failed_delete_reported_batch_continues_example :
    runWork failingCluster (Work.deletePod "ns1" "pod-a") []
      = .ok (some (Msg.error ("failed to delete pod " ++ "ns1" ++ "/" ++ "pod-a" ++ ": "
               ++ "forbidden")),
             [] ++ [Effect.PodsDelete "ns1" "pod-a"])
    ∧ Update plainKit failingCluster confirmPodModel []
        (Msg.error ("failed to delete pod " ++ "ns1" ++ "/" ++ "pod-a" ++ ": " ++ "forbidden"))
      = .ok ({ confirmPodModel with
                 err := some ("failed to delete pod " ++ "ns1" ++ "/" ++ "pod-a" ++ ": "
                   ++ "forbidden") },
             Cmd.nil, [])
    ∧ ∃ msgs out, runSequence failingCluster (deleteSelectedCmds failingCluster twoKeys) []
          = .ok (msgs, [] ++ out)
        ∧ deleteCalls out = [("ns1", "pod-a"), ("ns1", "pod-b")] :=
  failed_delete_reported_batch_continues plainKit failingCluster confirmPodModel [] []
    twoKeys "ns1" "pod-a" "forbidden" rfl

/-- C3 (the code departs from the claim): the session `reselectSession`
starts from `initialModel`; its second pod list is the one `getPods` returns.
At its end the selection map still holds `ns1/pod-a` and `ns1/pod-b` while no
pod of the active list is marked selected, so the selection invariant does
not hold; Enter then opens the ConfirmPod screen and Yes dispatches the
delete of both pods. -/
theorem C3_selection_invariant_broken :
    (runWork failingCluster (Work.getPods "worker-1") []).toOption.map (fun r => r.1)
      = some (some (Msg.podsMsg [podA, podB]))
    ∧ (runMsgs plainKit failingCluster (initialModel plainKit none) []
        reselectSession).toOption.map
        (fun r => (r.1.state, r.1.selectedPods.map Prod.fst,
                   r.1.pods.map fun p => (p.nspace ++ "/" ++ p.name, p.selected)))
      = some (StateSelectPods, ["ns1/pod-a", "ns1/pod-b"],
              [("ns1/pod-a", false), ("ns1/pod-b", false)])
    ∧ (∀ r, runMsgs plainKit failingCluster (initialModel plainKit none) [] reselectSession
              = .ok r → ¬ selectionConsistent r.1)
    ∧ (runMsgs plainKit failingCluster (initialModel plainKit none) []
        (reselectSession ++ [Msg.KeyMsg "enter", Msg.KeyMsg "enter"])).toOption.map
        (fun r => r.2.1.getLast?.map Cmd.dispatched)
      = some (some [Work.deletePod "ns1" "pod-a", Work.deletePod "ns1" "pod-b",
                    Work.markQuitting]) := by
  have h2 : (runMsgs plainKit failingCluster (initialModel plainKit none) []
        reselectSession).toOption.map
        (fun r => (r.1.state, r.1.selectedPods.map Prod.fst,
                   r.1.pods.map fun p => (p.nspace ++ "/" ++ p.name, p.selected)))
      = some (StateSelectPods, ["ns1/pod-a", "ns1/pod-b"],
              [("ns1/pod-a", false), ("ns1/pod-b", false)]) := by decide
  refine ⟨by decide, h2, ?_, by decide⟩
  intro r hr hcons
  rw [hr] at h2
  simp only [Except.toOption, Option.map_some', Option.some.injEq, Prod.mk.injEq] at h2
  obtain ⟨_, hkeys, hpods⟩ := h2
  have hmem : "ns1/pod-a" ∈ r.1.selectedPods.map Prod.fst := by rw [hkeys]; simp
  obtain ⟨p, hp, hkey, hsel⟩ := (hcons "ns1/pod-a").mp hmem
  have : (p.nspace ++ "/" ++ p.name, p.selected)
      ∈ r.1.pods.map fun p => (p.nspace ++ "/" ++ p.name, p.selected) :=
    List.mem_map.mpr ⟨p, hp, rfl⟩
  rw [hpods, hsel] at this
  simp at this

/-- A command of the list widget is no destructive dispatch. -/
theorem ofWidget_not_destructive (w : WidgetCmd) : (Cmd.ofWidget w).destructive = false := by
  cases w <;> rfl

/-- A step that changes neither the log nor the state, the action and the
selection, and returns no destructive dispatch, is a step of the confirmed
path. -/
theorem StepOk_of_same {kit : Toolkit} (log : List Effect) (k : Nat) (m m1 : model kit)
    (cmd : Cmd) (hk : callsToDispatch m = some k) (hcmd : cmd.destructive = false)
    (hs : m1.state = m.state) (ha : m1.action = m.action)
    (hp : m1.selectedPods = m.selectedPods) : StepOk log k (m1, cmd, log) := by
  right
  refine ⟨hcmd, [], by simp, Or.inl ⟨?_, ?_⟩⟩
  · have : k ≠ 0 := by
      rintro rfl
      simp only [callsToDispatch] at hk
      split at hk <;> simp at hk
    simpa [cordonCalls] using Nat.pos_of_ne_zero this
  · simp only [cordonCalls, List.filterMap_nil, List.length_nil, Nat.sub_zero]
    rw [← hk]
    simp only [callsToDispatch, hs, ha, hp]

/-- The cordon statements under a cluster on which cordon succeeds: a panic,
or one cordon call and its success line, with only `selectedNode` changed. -/
theorem cordonSelectedNode_ok (kit : Toolkit) (cl : Cluster) (m : model kit)
    (log : List Effect) (hc : ∀ l n, cl.RunCordonOrUncordon l n true = none)
    (r : Cordoned kit) (h : cordonSelectedNode kit cl m log = .ok r) :
    ∃ m1 line, r = Cordoned.done m1
        (log ++ [Effect.RunCordonOrUncordon m.selectedNode true, Effect.Printf line])
      ∧ m1.state = m.state ∧ m1.action = m.action ∧ m1.selectedPods = m.selectedPods := by
  simp only [cordonSelectedNode] at h
  split at h
  · simp at h
  · rename_i node hnode
    simp only [hc, Except.ok.injEq] at h
    subst h
    exact ⟨{ m with selectedNode := some (cl.cordonWrites log node true) },
      "Successfully cordoned node " ++ (cl.cordonWrites log node true).Name ++ "\n",
      by simp [hnode], rfl, rfl, rfl⟩

/-- Enter on Yes and every other key in state `confirm`, on the confirmed
path. -/
theorem updateConfirm_step (kit : Toolkit) (cl : Cluster) (m : model kit) (w : WidgetCmd)
    (log : List Effect) (s : String) (k : Nat)
    (hc : ∀ l n, cl.RunCordonOrUncordon l n true = none)
    (hstate : m.state = StateConfirm) (hk : callsToDispatch m = some k)
    (hy : ∀ i, s = "enter" → kit.SelectedItem m.list = some (Item.ofItem i) →
            i.Title = ConfirmYes)
    (r : model kit × Cmd × List Effect)
    (hu : updateConfirm kit cl m (Cmd.ofWidget w) log (Msg.KeyMsg s) = .ok r) :
    StepOk log k r := by
  have hact : (m.action = ActionForceDrainNode ∨ m.action = ActionForceDeleteNonDS) ∧ k = 1 := by
    simp only [callsToDispatch, hstate] at hk
    split at hk
    · exact ⟨‹_›, by simpa using hk.symm⟩
    · simp at hk
  obtain ⟨hact, rfl⟩ := hact
  simp only [updateConfirm] at hu
  split at hu
  · rename_i hs
    split at hu
    · simp only [Except.ok.injEq] at hu
      subst hu
      exact StepOk_of_same log 1 m m _ hk (ofWidget_not_destructive w) rfl rfl rfl
    · rename_i i hi
      rw [if_pos (hy i hs hi)] at hu
      split at hu
      · simp at hu
      · rename_i m1 log1 hcord
        obtain ⟨m2, line, h, _⟩ := cordonSelectedNode_ok kit cl m log hc _ hcord
        simp at h
      · rename_i m1 log1 hcord
        obtain ⟨m2, line, h, _, ha, _⟩ := cordonSelectedNode_ok kit cl m log hc _ hcord
        simp only [Cordoned.done.injEq] at h
        obtain ⟨rfl, rfl⟩ := h
        rw [ha] at hu
        rcases hact with hact | hact
        · rw [if_pos hact] at hu
          simp only [Except.ok.injEq] at hu
          subst hu
          exact Or.inl ⟨rfl, rfl, _, _, rfl⟩
        · have hne : ¬ m.action = ActionForceDrainNode := by
            rw [hact]; decide
          rw [if_neg hne, if_pos hact] at hu
          simp only [Except.ok.injEq] at hu
          subst hu
          exact Or.inl ⟨rfl, rfl, _, _, rfl⟩
    · simp at hu
  · simp only [Except.ok.injEq] at hu
    subst hu
    exact StepOk_of_same log 1 m m _ hk (ofWidget_not_destructive w) rfl rfl rfl

/-- Enter on Yes and every other key in state `confirmPod`, on the confirmed
path. -/
theorem updateConfirmPod_step (kit : Toolkit) (cl : Cluster) (m : model kit) (w : WidgetCmd)
    (log : List Effect) (s : String) (k : Nat)
    (hc : ∀ l n, cl.RunCordonOrUncordon l n true = none)
    (hperm : ∀ l, (cl.rangePods l).Perm l)
    (hstate : m.state = StateConfirmPod) (hk : callsToDispatch m = some k)
    (hy : ∀ i, s = "enter" → kit.SelectedItem m.list = some (Item.ofItem i) →
            i.Title = ConfirmYes)
    (r : model kit × Cmd × List Effect)
    (hu : updateConfirmPod kit cl m (Cmd.ofWidget w) log (Msg.KeyMsg s) = .ok r) :
    StepOk log k r := by
  have hsel : m.selectedPods ≠ [] ∧ k = 1 := by
    simp only [callsToDispatch, hstate] at hk
    split at hk
    · simp at hk
    · exact ⟨‹_›, by simpa using hk.symm⟩
  obtain ⟨hsel, rfl⟩ := hsel
  simp only [updateConfirmPod] at hu
  split at hu
  · rename_i hs
    split at hu
    · simp only [Except.ok.injEq] at hu
      subst hu
      exact StepOk_of_same log 1 m m _ hk (ofWidget_not_destructive w) rfl rfl rfl
    · rename_i i hi
      rw [if_pos (hy i hs hi)] at hu
      split at hu
      · simp at hu
      · rename_i m1 log1 hcord
        obtain ⟨m2, line, h, _⟩ := cordonSelectedNode_ok kit cl m log hc _ hcord
        simp at h
      · rename_i m1 log1 hcord
        obtain ⟨m2, line, h, _, _, hp⟩ := cordonSelectedNode_ok kit cl m log hc _ hcord
        simp only [Cordoned.done.injEq] at h
        obtain ⟨rfl, rfl⟩ := h
        simp only [Except.ok.injEq] at hu
        subst hu
        refine Or.inl ⟨?_, rfl, _, _, rfl⟩
        simp only [Cmd.destructive, dispatched_Sequence_work, deleteSelectedCmds, hp]
        cases hr : cl.rangePods m.selectedPods with
        | nil =>
          have := hperm m.selectedPods
          rw [hr] at this
          exact absurd this.nil_eq.symm hsel
        | cons kv rest => simp [Work.destructive]
    · simp at hu
  · simp only [Except.ok.injEq] at hu
    subst hu
    exact StepOk_of_same log 1 m m _ hk (ofWidget_not_destructive w) rfl rfl rfl

/-- Every key in state `selectAction`, on the confirmed path. -/
theorem updateSelectAction_step (kit : Toolkit) (m : model kit) (w : WidgetCmd)
    (log : List Effect) (s : String) (k : Nat)
    (hstate : m.state = StateSelectAction) (hk : callsToDispatch m = some k)
    (hy : ∀ i, s = "enter" → kit.SelectedItem m.list = some (Item.ofItem i) →
            i.Title ≠ ActionBack)
    (r : model kit × Cmd × List Effect)
    (hu : updateSelectAction kit m (Cmd.ofWidget w) log (Msg.KeyMsg s) = .ok r) :
    StepOk log k r := by
  have hk2 : k = 2 := by
    simp only [callsToDispatch, hstate] at hk
    simpa using hk.symm
  subst hk2
  simp only [updateSelectAction] at hu
  split at hu
  · rename_i hs
    split at hu
    · simp only [Except.ok.injEq] at hu
      subst hu
      exact StepOk_of_same log 2 m m _ hk (ofWidget_not_destructive w) rfl rfl rfl
    · rename_i i hi
      rw [if_neg (hy i hs hi)] at hu
      simp only [Except.ok.injEq] at hu
      subst hu
      exact Or.inr ⟨rfl, [], by simp, Or.inl ⟨by simp [cordonCalls], rfl⟩⟩
    · simp at hu
  · simp only [Except.ok.injEq] at hu
    subst hu
    exact StepOk_of_same log 2 m m _ hk (ofWidget_not_destructive w) rfl rfl rfl

/-- Every key in state `selectPods`, on the confirmed path. -/
theorem updateSelectPods_step (kit : Toolkit) (m : model kit) (w : WidgetCmd)
    (log : List Effect) (s : String) (k : Nat)
    (hstate : m.state = StateSelectPods) (hk : callsToDispatch m = some k)
    (r : model kit × Cmd × List Effect)
    (hu : updateSelectPods kit m (Cmd.ofWidget w) log (Msg.KeyMsg s) = .ok r) :
    StepOk log k r := by
  have hk1 : k = 1 := by
    simp only [callsToDispatch, hstate] at hk
    simpa using hk.symm
  subst hk1
  simp only [updateSelectPods] at hu
  split at hu
  · split at hu
    · simp only [Except.ok.injEq] at hu
      subst hu
      exact StepOk_of_same log 1 m m _ hk (ofWidget_not_destructive w) rfl rfl rfl
    · simp only [Except.ok.injEq] at hu
      subst hu
      exact Or.inr ⟨rfl, [], by simp, Or.inl ⟨by simp [cordonCalls],
        by simp [callsToDispatch, hstate, cordonCalls]⟩⟩
    · simp at hu
  · split at hu
    · split at hu
      · rename_i hlen
        simp only [Except.ok.injEq] at hu
        subst hu
        refine Or.inr ⟨ofWidget_not_destructive w, [], by simp, Or.inl ⟨by simp [cordonCalls], ?_⟩⟩
        have : m.selectedPods ≠ [] := by
          intro h
          rw [h] at hlen
          simp at hlen
        simp [callsToDispatch, this, cordonCalls]
      · simp only [Except.ok.injEq] at hu
        subst hu
        exact StepOk_of_same log 1 m m _ hk (ofWidget_not_destructive w) rfl rfl rfl
    · simp only [Except.ok.injEq] at hu
      subst hu
      exact StepOk_of_same log 1 m m _ hk (ofWidget_not_destructive w) rfl rfl rfl

/-- Enter on Yes and every other key in state `confirmCordon`, on the
confirmed path. -/
theorem updateConfirmCordon_step (kit : Toolkit) (cl : Cluster) (m : model kit) (w : WidgetCmd)
    (log : List Effect) (s : String) (k : Nat)
    (hc : ∀ l n, cl.RunCordonOrUncordon l n true = none)
    (hstate : m.state = StateConfirmCordon) (hk : callsToDispatch m = some k)
    (hy : ∀ i, s = "enter" → kit.SelectedItem m.list = some (Item.ofItem i) →
            i.Title = ConfirmYes)
    (r : model kit × Cmd × List Effect)
    (hu : updateConfirmCordon kit cl m (Cmd.ofWidget w) log (Msg.KeyMsg s) = .ok r) :
    StepOk log k r := by
  have hk2 : k = 2 := by
    simp only [callsToDispatch, hstate] at hk
    simpa using hk.symm
  subst hk2
  simp only [updateConfirmCordon] at hu
  split at hu
  · rename_i hs
    split at hu
    · simp only [Except.ok.injEq] at hu
      subst hu
      exact StepOk_of_same log 2 m m _ hk (ofWidget_not_destructive w) rfl rfl rfl
    · rename_i i hi
      rw [if_pos (hy i hs hi)] at hu
      split at hu
      · simp at hu
      · rename_i m1 log1 hcord
        obtain ⟨m2, line, h, _⟩ := cordonSelectedNode_ok kit cl m log hc _ hcord
        simp at h
      · rename_i m1 log1 hcord
        obtain ⟨m2, line, h, _, ha, _⟩ := cordonSelectedNode_ok kit cl m log hc _ hcord
        simp only [Cordoned.done.injEq] at h
        obtain ⟨rfl, rfl⟩ := h
        split at hu
        · simp only [Except.ok.injEq] at hu
          subst hu
          exact Or.inr ⟨rfl, _, rfl, Or.inl ⟨by simp [cordonCalls],
            by simp [callsToDispatch, cordonCalls]⟩⟩
        · simp only [Except.ok.injEq] at hu
          subst hu
          refine Or.inr ⟨rfl, _, rfl, ?_⟩
          by_cases hact : m1.action = ActionForceDrainNode ∨ m1.action = ActionForceDeleteNonDS
          · exact Or.inl ⟨by simp [cordonCalls], by simp [callsToDispatch, cordonCalls, hact]⟩
          · exact Or.inr ⟨Or.inl rfl, by simp [callsToDispatch, hact]⟩
    · simp at hu
  · simp only [Except.ok.injEq] at hu
    subst hu
    exact StepOk_of_same log 2 m m _ hk (ofWidget_not_destructive w) rfl rfl rfl

/-- A message that is no key message only passes through the list widget:
no state of the switch reacts to it. -/
theorem updateState_nonkey (kit : Toolkit) (cl : Cluster) (m : model kit) (log : List Effect)
    (msg : Msg) (hmsg : ∀ s, msg ≠ Msg.KeyMsg s) :
    updateState kit cl m log msg
      = .ok ({ m with list := (kit.Update m.list msg).1 },
             Cmd.ofWidget (kit.Update m.list msg).2, log) := by
  cases msg with
  | KeyMsg s => exact absurd rfl (hmsg s)
  | _ =>
    simp only [updateState]
    cases m.state <;>
      simp [updateSelectNode, updateSelectAction, updateConfirmCordon, updateConfirm,
        updateSelectPods, updateConfirmPod, updateConfirmToggle, zeroKeyMsgString, KeyEsc]

/-- One `Update` step on the confirmed path, under a cluster on which cordon
succeeds and a runtime that iterates every entry of a map. -/
theorem Update_step (kit : Toolkit) (cl : Cluster) (m : model kit) (log : List Effect)
    (msg : Msg) (k : Nat)
    (hc : ∀ l n, cl.RunCordonOrUncordon l n true = none)
    (hperm : ∀ l, (cl.rangePods l).Perm l)
    (hk : callsToDispatch m = some k) (hy : answersYes kit m msg = true)
    (r : model kit × Cmd × List Effect) (hu : Update kit cl m log msg = .ok r) :
    StepOk log k r := by
  cases msg with
  | KeyMsg s =>
    simp only [Update] at hu
    split at hu
    · simp only [Except.ok.injEq] at hu
      subst hu
      exact StepOk_of_same log k m _ _ hk rfl rfl rfl rfl
    · simp only [updateState] at hu
      split at hu
      · rename_i hstate
        simp [callsToDispatch, hstate] at hk
      · rename_i hstate
        refine updateSelectAction_step kit { m with list := (kit.Update m.list (Msg.KeyMsg s)).1 } _ log s k hstate hk ?_ r hu
        intro i hs hi
        subst hs
        simpa [answersYes, hi, hstate] using hy
      · rename_i hstate
        refine updateConfirmCordon_step kit cl { m with list := (kit.Update m.list (Msg.KeyMsg s)).1 } _ log s k hc hstate hk ?_ r hu
        intro i hs hi
        subst hs
        simpa [answersYes, hi, hstate] using hy
      · rename_i hstate
        refine updateConfirm_step kit cl { m with list := (kit.Update m.list (Msg.KeyMsg s)).1 } _ log s k hc hstate hk ?_ r hu
        intro i hs hi
        subst hs
        simpa [answersYes, hi, hstate] using hy
      · rename_i hstate
        exact updateSelectPods_step kit { m with list := (kit.Update m.list (Msg.KeyMsg s)).1 } _ log s k hstate hk r hu
      · rename_i hstate
        refine updateConfirmPod_step kit cl { m with list := (kit.Update m.list (Msg.KeyMsg s)).1 } _ log s k hc hperm hstate hk ?_ r hu
        intro i hs hi
        subst hs
        simpa [answersYes, hi, hstate] using hy
      · rename_i hstate
        simp [callsToDispatch, hstate] at hk
  | WindowSizeMsg Width Height =>
    simp only [Update] at hu
    split at hu
    · simp only [Except.ok.injEq] at hu
      subst hu
      exact StepOk_of_same log k m _ _ hk rfl rfl rfl rfl
    · rw [updateState_nonkey kit cl _ log _ (by intro s; simp)] at hu
      simp only [Except.ok.injEq] at hu
      subst hu
      exact StepOk_of_same log k m _ _ hk (ofWidget_not_destructive _) rfl rfl rfl
  | error e =>
    simp only [Update, Except.ok.injEq] at hu
    subst hu
    exact StepOk_of_same log k m _ _ hk rfl rfl rfl rfl
  | nodesMsg nodes =>
    simp only [Update, Except.ok.injEq] at hu
    subst hu
    exact StepOk_of_same log k m _ _ hk rfl rfl rfl rfl
  | podsMsg pods =>
    simp only [Update, Except.ok.injEq] at hu
    subst hu
    exact StepOk_of_same log k m _ _ hk rfl rfl rfl rfl
  | other tag =>
    simp only [Update] at hu
    rw [updateState_nonkey kit cl _ log _ (by intro s; simp)] at hu
    simp only [Except.ok.injEq] at hu
    subst hu
    exact StepOk_of_same log k m _ _ hk (ofWidget_not_destructive _) rfl rfl rfl

/-- A step that changes neither the state, the action nor the selection
leaves a stuck model stuck. -/
theorem stuck_of_same {kit : Toolkit} (m m1 : model kit) (h : stuck m)
    (hs : m1.state = m.state) (ha : m1.action = m.action)
    (hp : m1.selectedPods = m.selectedPods) : stuck m1 := by
  obtain ⟨h1, h2⟩ := h
  refine ⟨by rw [hs]; exact h1, ?_⟩
  rw [← h2]
  simp only [callsToDispatch, hs, ha, hp]

/-- Every key in state `confirm` with an action that dispatches nothing, on
the confirmed path. -/
theorem updateConfirm_stuck (kit : Toolkit) (cl : Cluster) (m : model kit) (w : WidgetCmd)
    (log : List Effect) (s : String)
    (hc : ∀ l n, cl.RunCordonOrUncordon l n true = none)
    (hstate : m.state = StateConfirm) (hstuck : stuck m)
    (hy : ∀ i, s = "enter" → kit.SelectedItem m.list = some (Item.ofItem i) →
            i.Title = ConfirmYes)
    (r : model kit × Cmd × List Effect)
    (hu : updateConfirm kit cl m (Cmd.ofWidget w) log (Msg.KeyMsg s) = .ok r) :
    r.2.1.destructive = false ∧ stuck r.1 := by
  have hact : ¬ (m.action = ActionForceDrainNode ∨ m.action = ActionForceDeleteNonDS) := by
    intro h
    have := hstuck.2
    simp [callsToDispatch, hstate, h] at this
  simp only [updateConfirm] at hu
  split at hu
  · rename_i hs
    split at hu
    · simp only [Except.ok.injEq] at hu
      subst hu
      exact ⟨ofWidget_not_destructive _, hstuck⟩
    · rename_i i hi
      rw [if_pos (hy i hs hi)] at hu
      split at hu
      · simp at hu
      · rename_i m1 log1 hcord
        obtain ⟨m2, line, h, _⟩ := cordonSelectedNode_ok kit cl _ log hc _ hcord
        simp at h
      · rename_i m1 log1 hcord
        obtain ⟨m2, line, h, hs2, ha2, hp2⟩ := cordonSelectedNode_ok kit cl _ log hc _ hcord
        simp only [Cordoned.done.injEq] at h
        obtain ⟨rfl, rfl⟩ := h
        rw [ha2, if_neg (fun h => hact (Or.inl h)), if_neg (fun h => hact (Or.inr h))] at hu
        simp only [Except.ok.injEq] at hu
        subst hu
        exact ⟨ofWidget_not_destructive _, stuck_of_same m _ hstuck hs2 ha2 hp2⟩
    · simp at hu
  · simp only [Except.ok.injEq] at hu
    subst hu
    exact ⟨ofWidget_not_destructive _, hstuck⟩

/-- Every key in state `confirmPod` without selection, on the confirmed
path. -/
theorem updateConfirmPod_stuck (kit : Toolkit) (cl : Cluster) (m : model kit) (w : WidgetCmd)
    (log : List Effect) (s : String)
    (hc : ∀ l n, cl.RunCordonOrUncordon l n true = none)
    (hperm : ∀ l, (cl.rangePods l).Perm l)
    (hstate : m.state = StateConfirmPod) (hstuck : stuck m)
    (hy : ∀ i, s = "enter" → kit.SelectedItem m.list = some (Item.ofItem i) →
            i.Title = ConfirmYes)
    (r : model kit × Cmd × List Effect)
    (hu : updateConfirmPod kit cl m (Cmd.ofWidget w) log (Msg.KeyMsg s) = .ok r) :
    r.2.1.destructive = false ∧ stuck r.1 := by
  have hsel : m.selectedPods = [] := by
    by_contra h
    have := hstuck.2
    simp [callsToDispatch, hstate, h] at this
  simp only [updateConfirmPod] at hu
  split at hu
  · rename_i hs
    split at hu
    · simp only [Except.ok.injEq] at hu
      subst hu
      exact ⟨ofWidget_not_destructive _, hstuck⟩
    · rename_i i hi
      rw [if_pos (hy i hs hi)] at hu
      split at hu
      · simp at hu
      · rename_i m1 log1 hcord
        obtain ⟨m2, line, h, _⟩ := cordonSelectedNode_ok kit cl _ log hc _ hcord
        simp at h
      · rename_i m1 log1 hcord
        obtain ⟨m2, line, h, hs2, ha2, hp2⟩ := cordonSelectedNode_ok kit cl _ log hc _ hcord
        simp only [Cordoned.done.injEq] at h
        obtain ⟨rfl, rfl⟩ := h
        simp only [Except.ok.injEq] at hu
        subst hu
        refine ⟨?_, stuck_of_same m _ hstuck hs2 ha2 hp2⟩
        have hnil : cl.rangePods [] = [] := (hperm []).eq_nil
        simp only [Cmd.destructive, deleteSelectedCmds, hp2, hsel, hnil, List.map_nil,
          List.nil_append, dispatched_Sequence_work]
        rfl
    · simp at hu
  · simp only [Except.ok.injEq] at hu
    subst hu
    exact ⟨ofWidget_not_destructive _, hstuck⟩

/-- One `Update` step on the confirmed path from a stuck model: no
destructive dispatch, and the model stays stuck. -/
theorem Update_stuck (kit : Toolkit) (cl : Cluster) (m : model kit) (log : List Effect)
    (msg : Msg)
    (hc : ∀ l n, cl.RunCordonOrUncordon l n true = none)
    (hperm : ∀ l, (cl.rangePods l).Perm l)
    (hstuck : stuck m) (hy : answersYes kit m msg = true)
    (r : model kit × Cmd × List Effect) (hu : Update kit cl m log msg = .ok r) :
    r.2.1.destructive = false ∧ stuck r.1 := by
  cases msg with
  | KeyMsg s =>
    simp only [Update] at hu
    split at hu
    · simp only [Except.ok.injEq] at hu
      subst hu
      exact ⟨rfl, stuck_of_same m _ hstuck rfl rfl rfl⟩
    · have hst := hstuck.1
      simp only [updateState] at hu
      split at hu
      · rename_i hstate
        rw [hstate] at hst
        simp at hst
      · rename_i hstate
        rw [hstate] at hst
        simp at hst
      · rename_i hstate
        rw [hstate] at hst
        simp at hst
      · rename_i hstate
        refine updateConfirm_stuck kit cl { m with list := (kit.Update m.list (Msg.KeyMsg s)).1 }
          _ log s hc hstate (stuck_of_same m _ hstuck rfl rfl rfl) ?_ r hu
        intro i hs hi
        subst hs
        simpa [answersYes, hi, hstate] using hy
      · rename_i hstate
        rw [hstate] at hst
        simp at hst
      · rename_i hstate
        refine updateConfirmPod_stuck kit cl
          { m with list := (kit.Update m.list (Msg.KeyMsg s)).1 }
          _ log s hc hperm hstate (stuck_of_same m _ hstuck rfl rfl rfl) ?_ r hu
        intro i hs hi
        subst hs
        simpa [answersYes, hi, hstate] using hy
      · rename_i hstate
        rw [hstate] at hst
        simp at hst
  | WindowSizeMsg Width Height =>
    simp only [Update] at hu
    split at hu
    · simp only [Except.ok.injEq] at hu
      subst hu
      exact ⟨rfl, stuck_of_same m _ hstuck rfl rfl rfl⟩
    · rw [updateState_nonkey kit cl _ log _ (by intro s; simp)] at hu
      simp only [Except.ok.injEq] at hu
      subst hu
      exact ⟨ofWidget_not_destructive _, stuck_of_same m _ hstuck rfl rfl rfl⟩
  | error e =>
    simp only [Update, Except.ok.injEq] at hu
    subst hu
    exact ⟨rfl, stuck_of_same m _ hstuck rfl rfl rfl⟩
  | nodesMsg nodes =>
    simp only [Update, Except.ok.injEq] at hu
    subst hu
    exact ⟨rfl, stuck_of_same m _ hstuck rfl rfl rfl⟩
  | podsMsg pods =>
    simp only [Update, Except.ok.injEq] at hu
    subst hu
    exact ⟨rfl, stuck_of_same m _ hstuck rfl rfl rfl⟩
  | other tag =>
    simp only [Update] at hu
    rw [updateState_nonkey kit cl _ log _ (by intro s; simp)] at hu
    simp only [Except.ok.injEq] at hu
    subst hu
    exact ⟨ofWidget_not_destructive _, stuck_of_same m _ hstuck rfl rfl rfl⟩

/-- A run of at least one message is a step followed by a run. -/
theorem runMsgs_cons (kit : Toolkit) (cl : Cluster) (m m' : model kit) (log log' : List Effect)
    (msg : Msg) (rest : List Msg) (cmds : List Cmd)
    (h : runMsgs kit cl m log (msg :: rest) = .ok (m', cmds, log')) :
    ∃ m1 cmd log1 cmds1, Update kit cl m log msg = .ok (m1, cmd, log1)
      ∧ runMsgs kit cl m1 log1 rest = .ok (m', cmds1, log') ∧ cmds = cmd :: cmds1 := by
  simp only [runMsgs] at h
  split at h
  · simp at h
  · rename_i m1 cmd log1 hu
    split at h
    · simp at h
    · rename_i m2 cmds1 log2 hr
      simp only [Except.ok.injEq, Prod.mk.injEq] at h
      obtain ⟨rfl, rfl, rfl⟩ := h
      exact ⟨m1, cmd, log1, cmds1, hu, hr, rfl⟩

/-- On the confirmed path a run from a stuck model does not end in a
destructive dispatch. -/
theorem stuck_run (kit : Toolkit) (cl : Cluster)
    (hc : ∀ l n, cl.RunCordonOrUncordon l n true = none)
    (hperm : ∀ l, (cl.rangePods l).Perm l)
    (msgs : List Msg) (m m' : model kit) (log log' : List Effect) (cmds : List Cmd)
    (hstuck : stuck m)
    (hrun : runMsgs kit cl m log msgs = .ok (m', cmds, log'))
    (hpath : confirmedPath kit cl m log msgs = true) :
    endsInFirstDispatch cmds = false := by
  induction msgs generalizing m log cmds with
  | nil =>
    simp only [runMsgs, Except.ok.injEq, Prod.mk.injEq] at hrun
    obtain ⟨_, rfl, _⟩ := hrun
    rfl
  | cons msg rest ih =>
    obtain ⟨m1, cmd, log1, cmds1, hu, hr, rfl⟩ := runMsgs_cons kit cl m m' log log' msg rest cmds hrun
    simp only [confirmedPath, hu, Bool.and_eq_true] at hpath
    obtain ⟨hcmd, hstuck1⟩ := Update_stuck kit cl m log msg hc hperm hstuck hpath.1 _ hu
    have hrest := ih m1 log1 cmds1 hstuck1 hr hpath.2
    cases cmds1 with
    | nil => simpa [endsInFirstDispatch] using hcmd
    | cons c cs => simp [endsInFirstDispatch, hrest]

/-- On the confirmed path, a run that ends in its first destructive dispatch
from a model `k` cordon calls away from it ends with a cordon call and its
success line, after `k - 1` earlier cordon calls. -/
theorem confirmed_run (kit : Toolkit) (cl : Cluster)
    (hc : ∀ l n, cl.RunCordonOrUncordon l n true = none)
    (hperm : ∀ l, (cl.rangePods l).Perm l)
    (msgs : List Msg) (m m' : model kit) (log log' : List Effect) (cmds : List Cmd) (k : Nat)
    (hk : callsToDispatch m = some k)
    (hrun : runMsgs kit cl m log msgs = .ok (m', cmds, log'))
    (hpath : confirmedPath kit cl m log msgs = true)
    (hend : endsInFirstDispatch cmds = true) :
    ∃ es n line,
      log' = log ++ es ++ [Effect.RunCordonOrUncordon n true, Effect.Printf line]
      ∧ (cordonCalls es).length + 1 = k := by
  induction msgs generalizing m log cmds k with
  | nil =>
    simp only [runMsgs, Except.ok.injEq, Prod.mk.injEq] at hrun
    obtain ⟨_, rfl, _⟩ := hrun
    simp [endsInFirstDispatch] at hend
  | cons msg rest ih =>
    obtain ⟨m1, cmd, log1, cmds1, hu, hr, rfl⟩ := runMsgs_cons kit cl m m' log log' msg rest cmds hrun
    simp only [confirmedPath, hu, Bool.and_eq_true] at hpath
    rcases Update_step kit cl m log msg k hc hperm hk hpath.1 _ hu with
      ⟨hd, rfl, n, line, hlog⟩ | ⟨hd, es, hlog, halt⟩
    · -- the step dispatches: it is the last one
      simp only at hd hlog
      cases rest with
      | nil =>
        simp only [runMsgs, Except.ok.injEq, Prod.mk.injEq] at hr
        obtain ⟨_, _, rfl⟩ := hr
        exact ⟨[], n, line, by simpa using hlog, by simp [cordonCalls]⟩
      | cons msg2 rest2 =>
        obtain ⟨_, _, _, _, _, _, rfl⟩ := runMsgs_cons kit cl m1 m' log1 log' msg2 rest2 cmds1 hr
        simp [endsInFirstDispatch, hd] at hend
    · -- the step does not dispatch
      simp only at hd hlog halt
      have hend1 : endsInFirstDispatch cmds1 = true := by
        cases cmds1 with
        | nil => simp [endsInFirstDispatch, hd] at hend
        | cons c cs => simpa [endsInFirstDispatch, hd] using hend
      rcases halt with ⟨hlt, hk1⟩ | hstuck
      · obtain ⟨es1, n, line, hlog', hcount⟩ := ih m1 log1 cmds1 _ hk1 hr hpath.2 hend1
        refine ⟨es ++ es1, n, line, ?_, ?_⟩
        · rw [hlog', hlog]
          simp
        · simp only [cordonCalls, List.filterMap_append, List.length_append] at hcount hlt ⊢
          omega
      · have := stuck_run kit cl hc hperm rest m1 m' log1 log' cmds1 hstuck hr hpath.2
        rw [this] at hend1
        simp at hend1

/-- The cordon statements, when they succeed, add exactly the cordon call on
the selected node and its success line to the log. -/
theorem cordonSelectedNode_done (kit : Toolkit) (cl : Cluster) (m m1 : model kit)
    (log log1 : List Effect) (h : cordonSelectedNode kit cl m log = .ok (Cordoned.done m1 log1)) :
    ∃ line, log1 = log ++ [Effect.RunCordonOrUncordon m.selectedNode true, Effect.Printf line] := by
  simp only [cordonSelectedNode] at h
  split at h
  · simp at h
  · rename_i node hnode
    split at h
    · simp at h
    · simp only [Except.ok.injEq, Cordoned.done.injEq] at h
      exact ⟨"Successfully cordoned node " ++ (cl.cordonWrites log node true).Name ++ "\n",
        by rw [← h.2, hnode]; simp⟩

/-- Whatever the model and the message: when `Update` returns a destructive
dispatch, it has made, in that same call, exactly one cordon call, on the
selected node, followed only by its success line. -/
theorem Update_destructive (kit : Toolkit) (cl : Cluster) (m : model kit) (log : List Effect)
    (msg : Msg) (r : model kit × Cmd × List Effect)
    (hu : Update kit cl m log msg = .ok r) (hd : r.2.1.destructive = true) :
    ∃ line, r.2.2 = log ++ [Effect.RunCordonOrUncordon m.selectedNode true, Effect.Printf line] := by
  have hw : ∀ w : WidgetCmd, (Cmd.ofWidget w).destructive = true → False := by
    intro w h
    rw [ofWidget_not_destructive] at h
    cases h
  cases msg with
  | KeyMsg s =>
    simp only [Update] at hu
    split at hu
    · simp only [Except.ok.injEq] at hu
      subst hu
      cases hd
    · simp only [updateState] at hu
      split at hu
      · simp only [updateSelectNode] at hu
        repeat' split at hu
        all_goals first
          | (simp at hu; done)
          | (simp only [Except.ok.injEq] at hu; subst hu; first | exact (hw _ hd).elim | cases hd)
      · simp only [updateSelectAction] at hu
        repeat' split at hu
        all_goals first
          | (simp at hu; done)
          | (simp only [Except.ok.injEq] at hu; subst hu; first | exact (hw _ hd).elim | cases hd)
      · simp only [updateConfirmCordon] at hu
        repeat' split at hu
        all_goals first
          | (simp at hu; done)
          | (simp only [Except.ok.injEq] at hu; subst hu; first | exact (hw _ hd).elim | cases hd)
      · simp only [updateConfirm] at hu
        repeat' split at hu
        all_goals first
          | (simp at hu; done)
          | (simp only [Except.ok.injEq] at hu; subst hu
             first
               | exact (hw _ hd).elim
               | exact cordonSelectedNode_done kit cl
                   { m with list := (kit.Update m.list (Msg.KeyMsg s)).1 } _ log _
                   (by assumption)
               | cases hd)
      · simp only [updateSelectPods] at hu
        repeat' split at hu
        all_goals first
          | (simp at hu; done)
          | (simp only [Except.ok.injEq] at hu; subst hu; first | exact (hw _ hd).elim | cases hd)
      · simp only [updateConfirmPod] at hu
        repeat' split at hu
        all_goals first
          | (simp at hu; done)
          | (simp only [Except.ok.injEq] at hu; subst hu
             first
               | exact (hw _ hd).elim
               | exact cordonSelectedNode_done kit cl
                   { m with list := (kit.Update m.list (Msg.KeyMsg s)).1 } _ log _
                   (by assumption)
               | cases hd)
      · simp only [updateConfirmToggle] at hu
        repeat' split at hu
        all_goals first
          | (simp at hu; done)
          | (simp only [Except.ok.injEq] at hu; subst hu; first | exact (hw _ hd).elim | cases hd)
  | WindowSizeMsg Width Height =>
    simp only [Update] at hu
    split at hu
    · simp only [Except.ok.injEq] at hu
      subst hu
      cases hd
    · rw [updateState_nonkey kit cl _ log _ (by intro s; simp)] at hu
      simp only [Except.ok.injEq] at hu
      subst hu
      exact (hw _ hd).elim
  | error e =>
    simp only [Update, Except.ok.injEq] at hu
    subst hu
    cases hd
  | nodesMsg nodes =>
    simp only [Update, Except.ok.injEq] at hu
    subst hu
    cases hd
  | podsMsg pods =>
    simp only [Update, Except.ok.injEq] at hu
    subst hu
    cases hd
  | other tag =>
    simp only [Update] at hu
    rw [updateState_nonkey kit cl _ log _ (by intro s; simp)] at hu
    simp only [Except.ok.injEq] at hu
    subst hu
    exact (hw _ hd).elim

/-- C2 (as stated, refuted): in the session `drainSession` the operation menu
(state `selectAction`) is reached after two messages, with no cordon call
made; answering Yes at both confirmation screens ends in the drain dispatch,
and two cordon calls have then been made, not one. -/
theorem C2_one_cordon_call_counterexample :
    (runMsgs plainKit failingCluster (initialModel plainKit none) []
        (drainSession.take 2)).toOption.map (fun r => (r.1.state, cordonCalls r.2.2))
      = some (StateSelectAction, [])
    ∧ (runMsgs plainKit failingCluster (initialModel plainKit none) []
        drainSession).toOption.map
        (fun r => (r.2.1.map Cmd.destructive, cordonCalls r.2.2))
      = some ([false, false, false, false, true], [some worker1, some worker1Cordoned])
    ∧ (runMsgs plainKit failingCluster (initialModel plainKit none) []
        drainSession).toOption.map (fun r => (cordonCalls r.2.2).length) ≠ some 1 := by
  refine ⟨?_, ?_, ?_⟩ <;> decide

/-- C2 (amended): take any run of `Update` that starts in `selectAction`,
keeps to the confirmed path (Back is not chosen, every Enter on a
confirmation screen is on Yes) and ends in its first destructive dispatch, on
a cluster where cordon succeeds and a runtime that iterates every map entry.
Then exactly two cordon calls are made on the path: one before the last step
and one in the last step, followed there only by its success line.  And in
any model, an `Update` call that returns a destructive dispatch has made
exactly one cordon call, on the selected node, within that call. -/
theorem C2_confirmed_path_cordons_twice (kit : Toolkit) (cl : Cluster) (m m' : model kit)
    (log log' : List Effect) (msgs : List Msg) (cmds : List Cmd)
    (hstate : m.state = StateSelectAction)
    (hc : ∀ l n, cl.RunCordonOrUncordon l n true = none)
    (hperm : ∀ l, (cl.rangePods l).Perm l)
    (hrun : runMsgs kit cl m log msgs = .ok (m', cmds, log'))
    (hpath : confirmedPath kit cl m log msgs = true)
    (hend : endsInFirstDispatch cmds = true) :
    (∃ es n line,
        log' = log ++ es ++ [Effect.RunCordonOrUncordon n true, Effect.Printf line]
        ∧ (cordonCalls es).length = 1)
    ∧ ∀ (m0 : model kit) (log0 : List Effect) (msg : Msg) (r : model kit × Cmd × List Effect),
        Update kit cl m0 log0 msg = .ok r → r.2.1.destructive = true →
        ∃ line, r.2.2 = log0 ++ [Effect.RunCordonOrUncordon m0.selectedNode true,
                                 Effect.Printf line] := by
  constructor
  · have hk : callsToDispatch m = some 2 := by simp [callsToDispatch, hstate]
    obtain ⟨es, n, line, hlog, hcount⟩ :=
      confirmed_run kit cl hc hperm msgs m m' log log' cmds 2 hk hrun hpath hend
    exact ⟨es, n, line, hlog, by omega⟩
  · intro m0 log0 msg r hu hd
    exact Update_destructive kit cl m0 log0 msg r hu hd

/-- Witness of C2 (amended): from the operation menu of `worker-1`, Enter on
"Force Drain node", Yes, Yes. -/
theorem C2_confirmed_path_cordons_twice_witness :
    ∃ es n line,
      [Effect.RunCordonOrUncordon (some worker1) true,
       Effect.Printf "Successfully cordoned node worker-1\n",
       Effect.RunCordonOrUncordon (some worker1Cordoned) true,
       Effect.Printf "Successfully cordoned node worker-1\n"]
        = [] ++ es ++ [Effect.RunCordonOrUncordon n true, Effect.Printf line]
      ∧ (cordonCalls es).length = 1 :=
  (C2_confirmed_path_cordons_twice plainKit failingCluster selectActionModel _ [] _
    [Msg.KeyMsg "enter", Msg.KeyMsg "enter", Msg.KeyMsg "enter"] _
    rfl (fun _ _ => rfl) (fun _ => List.Perm.refl _) rfl rfl rfl).1

/-- C12 (the code departs from the claim): on `healthyCluster` the sessions
`drainSession` and `deleteNonDSSession` end with Enter on Yes in state
`confirm` and dispatch the drain and the non-daemonset delete.  Both commands
complete successfully and return nil, so nothing is handed to `Update`: the
model keeps `quitting = false` and state `confirm`, no quit command is
issued, and `View` still renders the Confirm screen. -/
theorem C12_session_does_not_quit_on_completion :
    (runMsgs plainKit healthyCluster (initialModel plainKit none) [] drainSession).toOption.map
        (fun r => r.2.1.getLast?.map Cmd.dispatched)
      = some (some [Work.drainNode (some worker1Cordoned) "worker-1"])
    ∧ (runWork healthyCluster (Work.drainNode (some worker1Cordoned) "worker-1") []).toOption
      = some (none, [Effect.RunNodeDrain "worker-1",
                     Effect.Printf "Successfully drained node worker-1\n"])
    ∧ (sessionThenComplete plainKit healthyCluster (initialModel plainKit none) [] drainSession
        (Work.drainNode (some worker1Cordoned) "worker-1")).toOption.map
        (fun r => (r.1.state, r.1.quitting, r.2.1.isNil, View plainKit r.1))
      = some (StateConfirm, false, true, "\nConfirm Operation\n" ++ genericHelp)
    ∧ (runMsgs plainKit healthyCluster (initialModel plainKit none) []
        deleteNonDSSession).toOption.map (fun r => r.2.1.getLast?.map Cmd.dispatched)
      = some (some [Work.deleteNonDaemonsetPods "worker-1"])
    ∧ (runWork healthyCluster (Work.deleteNonDaemonsetPods "worker-1") []).toOption.map
        (fun r => r.1)
      = some none
    ∧ (sessionThenComplete plainKit healthyCluster (initialModel plainKit none) []
        deleteNonDSSession (Work.deleteNonDaemonsetPods "worker-1")).toOption.map
        (fun r => (r.1.state, r.1.quitting, r.2.1.isNil, View plainKit r.1))
      = some (StateConfirm, false, true, "\nConfirm Operation\n" ++ genericHelp) := by
  refine ⟨?_, ?_, ?_, ?_, ?_, ?_⟩ <;> decide

/-- A successful drain returns nil, and a nil result leaves the program's
model as it was: whatever the model, completing the drain command changes
neither `quitting` nor the state. -/
theorem complete_drain_success (kit : Toolkit) (cl : Cluster) (m : model kit)
    (log : List Effect) (node : Node) (selectedNodeName : String)
    (h : cl.RunNodeDrain log node.Name = none) :
    complete kit cl m log (Work.drainNode (some node) selectedNodeName)
      = .ok (m, Cmd.nil,
             log ++ [Effect.RunNodeDrain node.Name,
                     Effect.Printf ("Successfully drained node " ++ selectedNodeName ++ "\n")]) := by
  simp [complete, runWork, drainNode, h, deliver]

/-- C13 (as stated, refuted): on `deniedCluster` the operator highlights the
schedulable `worker-1`, presses c and answers Yes.  `Update` makes the one
cordon call, which is refused: `err` is set, the state stays `confirmToggle`
and no node re-fetch is dispatched. -/
theorem C13_refused_toggle_counterexample :
    (runMsgs plainKit deniedCluster (initialModel plainKit none) [] toggleSession).toOption.map
        (fun r => (r.1.state, r.1.err, r.2.1.map Cmd.dispatched, r.2.2))
      = some (StateConfirmToggle, some "denied", [[], [], []],
              [Effect.NodesGet "worker-1", Effect.RunCordonOrUncordon (some worker1) true])
    ∧ (runMsgs plainKit deniedCluster (initialModel plainKit none) [] toggleSession).toOption.map
        (fun r => (r.1.state, r.2.1.getLast?.map Cmd.dispatched))
      ≠ some (StateSelectNode, some [Work.getNodes]) := by
  refine ⟨?_, ?_⟩ <;> decide

/-- C13 (amended): in state `selectNode` with a node row highlighted whose
record is fetched on c, `Update` on c opens the ConfirmToggle screen with one
node fetch, the fetched record being the selected node.  In any model in
state `confirmToggle` with a selected node record, Enter on Yes makes exactly
one `RunCordonOrUncordon` call, on that record, with desired unschedulable
the negation of the record's `Unschedulable`; when the call succeeds the
state becomes `selectNode` and the node re-fetch is dispatched, when it fails
`err` is set, the state stays `confirmToggle` and nothing is dispatched.
Enter on another entry and esc make no call and go to `selectNode` with the
node re-fetch. -/
theorem C13_toggle_calls_opposite (kit : Toolkit) (cl : Cluster) (m m2 : model kit)
    (log log2 : List Effect) (row : nodeInfo) (node node2 : Node)
    (hstate : m.state = StateSelectNode)
    (hrow : kit.SelectedItem (kit.Update m.list (Msg.KeyMsg "c")).1 = some (Item.ofNode row))
    (hget : cl.NodesGet log row.name = .ok node)
    (hstate2 : m2.state = StateConfirmToggle)
    (hnode2 : m2.selectedNode = some node2) :
    Update kit cl m log (Msg.KeyMsg "c")
      = .ok (toggleScreen kit m row (some node), Cmd.nil, log ++ [Effect.NodesGet row.name])
    ∧ (toggleScreen kit m row (some node)).state = StateConfirmToggle
    ∧ (toggleScreen kit m row (some node)).selectedNode = some node
    ∧ (∀ desc,
        kit.SelectedItem (kit.Update m2.list (Msg.KeyMsg "enter")).1
            = some (Item.ofItem ⟨ConfirmYes, desc⟩) →
        cl.RunCordonOrUncordon log2 (some node2) (!node2.Unschedulable) = none →
        Update kit cl m2 log2 (Msg.KeyMsg "enter")
          = .ok ({ m2 with
                     list := (kit.Update m2.list (Msg.KeyMsg "enter")).1
                     selectedNode := some (cl.cordonWrites log2 node2 (!node2.Unschedulable))
                     state := StateSelectNode },
                 Cmd.work Work.getNodes,
                 log2 ++
                   [Effect.RunCordonOrUncordon (some node2) (!node2.Unschedulable),
                    Effect.Printf ("Successfully "
                      ++ (if (cl.cordonWrites log2 node2 (!node2.Unschedulable)).Unschedulable
                          then MsgUncordon else MsgCordon)
                      ++ "ed node "
                      ++ (cl.cordonWrites log2 node2 (!node2.Unschedulable)).Name ++ "\n")]))
    ∧ (∀ desc e,
        kit.SelectedItem (kit.Update m2.list (Msg.KeyMsg "enter")).1
            = some (Item.ofItem ⟨ConfirmYes, desc⟩) →
        cl.RunCordonOrUncordon log2 (some node2) (!node2.Unschedulable) = some e →
        Update kit cl m2 log2 (Msg.KeyMsg "enter")
          = .ok ({ m2 with
                     list := (kit.Update m2.list (Msg.KeyMsg "enter")).1
                     selectedNode := some (cl.cordonWrites log2 node2 (!node2.Unschedulable))
                     err := some e },
                 Cmd.nil,
                 log2 ++ [Effect.RunCordonOrUncordon (some node2) (!node2.Unschedulable)]))
    ∧ (∀ i : item, i.Title ≠ ConfirmYes →
        kit.SelectedItem (kit.Update m2.list (Msg.KeyMsg "enter")).1 = some (Item.ofItem i) →
        Update kit cl m2 log2 (Msg.KeyMsg "enter")
          = .ok ({ m2 with
                     list := (kit.Update m2.list (Msg.KeyMsg "enter")).1
                     state := StateSelectNode },
                 Cmd.work Work.getNodes, log2))
    ∧ Update kit cl m2 log2 (Msg.KeyMsg "esc")
        = .ok ({ m2 with
                   list := (kit.Update m2.list (Msg.KeyMsg "esc")).1
                   state := StateSelectNode },
               Cmd.work Work.getNodes, log2) := by
  refine ⟨?_, rfl, rfl, ?_, ?_, ?_, ?_⟩
  · simp [Update, updateState, hstate, updateSelectNode, KeyC, hrow, getNode, hget, toggleScreen]
  · intro desc hyes hcall
    simp [Update, updateState, hstate2, updateConfirmToggle, KeyEnter, hyes, item.Title, hnode2,
      hcall]
  · intro desc e hyes hcall
    simp [Update, updateState, hstate2, updateConfirmToggle, KeyEnter, hyes, item.Title, hnode2,
      hcall]
  · intro i hi hsel
    simp [Update, updateState, hstate2, updateConfirmToggle, KeyEnter, hsel, hi]
  · simp [Update, updateState, hstate2, updateConfirmToggle, KeyEnter, KeyEsc]

/-- Witness of C13 (amended): `worker-1` is schedulable.  After c, Enter on
Yes makes one call with desired unschedulable = true (a cordon), then the
state is `selectNode` and the node re-fetch is dispatched; the success line
is worded from the record as the call left it.  After c and down, No is
highlighted, and Enter makes no call and goes to `selectNode` with the node
re-fetch. -/
theorem C13_toggle_calls_opposite_witness :
    Update plainKit failingCluster (toggleScreen plainKit nodeListModel worker1Info (some worker1))
        [Effect.NodesGet "worker-1"] (Msg.KeyMsg "enter")
      = .ok ({ toggleScreen plainKit nodeListModel worker1Info (some worker1) with
                 list := (plainKit.Update
                            (toggleScreen plainKit nodeListModel worker1Info (some worker1)).list
                            (Msg.KeyMsg "enter")).1
                 selectedNode := some worker1Cordoned
                 state := StateSelectNode },
             Cmd.work Work.getNodes,
             [Effect.NodesGet "worker-1", Effect.RunCordonOrUncordon (some worker1) true,
              Effect.Printf "Successfully uncordoned node worker-1\n"])
    ∧ (runMsgs plainKit failingCluster nodeListModel [] [Msg.KeyMsg "c", Msg.KeyMsg "down"]
        ).toOption.map
          (fun r => (r.1.state, r.1.selectedNode, plainKit.SelectedItem r.1.list, r.2.2))
        = some (toggleScreenOnNo.state, toggleScreenOnNo.selectedNode,
                some (Item.ofItem ⟨ConfirmNo, DescCancelBack⟩), [Effect.NodesGet "worker-1"])
    ∧ (runMsgs plainKit failingCluster nodeListModel []
          [Msg.KeyMsg "c", Msg.KeyMsg "down", Msg.KeyMsg "enter"]).toOption.map
          (fun r => (r.1.state, r.2.1.getLast?.map Cmd.dispatched, r.2.2))
        = some (StateSelectNode, some [Work.getNodes], [Effect.NodesGet "worker-1"])
    ∧ Update plainKit failingCluster toggleScreenOnNo [Effect.NodesGet "worker-1"]
        (Msg.KeyMsg "enter")
      = .ok ({ toggleScreenOnNo with
                 list := (plainKit.Update toggleScreenOnNo.list (Msg.KeyMsg "enter")).1
                 state := StateSelectNode },
             Cmd.work Work.getNodes, [Effect.NodesGet "worker-1"]) :=
  ⟨(C13_toggle_calls_opposite plainKit failingCluster nodeListModel
      (toggleScreen plainKit nodeListModel worker1Info (some worker1))
      [] [Effect.NodesGet "worker-1"] worker1Info worker1 worker1
      rfl rfl rfl rfl rfl).2.2.2.1 "Confirm cordon node worker-1" rfl rfl,
   by decide, by decide,
   (C13_toggle_calls_opposite plainKit failingCluster nodeListModel toggleScreenOnNo
      [] [Effect.NodesGet "worker-1"] worker1Info worker1 worker1
      rfl rfl rfl rfl rfl).2.2.2.2.2.1 ⟨ConfirmNo, DescCancelBack⟩ (by decide) rfl⟩

/-- C11 (the code departs from the claim): on `unreachableCluster` the fetch
of the chosen node fails and `Update` drops the error.  From `initialModel`,
c on `worker-1` reaches the ConfirmToggle screen, and Enter, Enter reaches
the ConfirmCordon screen, both with `selectedNodeName = "worker-1"` and a nil
`selectedNode`; Enter on Yes on either screen then dereferences the nil node
and panics. -/
theorem C11_confirmation_with_nil_node :
    (runMsgs plainKit unreachableCluster (initialModel plainKit none) []
        [Msg.nodesMsg [worker1Info], Msg.KeyMsg "c"]).toOption.map
        (fun r => (r.1.state, r.1.selectedNodeName, r.1.selectedNode, r.1.err, r.2.2))
      = some (StateConfirmToggle, "worker-1", none, none, [Effect.NodesGet "worker-1"])
    ∧ (runMsgs plainKit unreachableCluster (initialModel plainKit none) []
        [Msg.nodesMsg [worker1Info], Msg.KeyMsg "enter", Msg.KeyMsg "enter"]).toOption.map
        (fun r => (r.1.state, r.1.selectedNodeName, r.1.selectedNode, r.1.err, r.2.2))
      = some (StateConfirmCordon, "worker-1", none, none, [Effect.NodesGet "worker-1"])
    ∧ panicOf (runMsgs plainKit unreachableCluster (initialModel plainKit none) []
        [Msg.nodesMsg [worker1Info], Msg.KeyMsg "c", Msg.KeyMsg "enter"])
      = some "nil pointer dereference"
    ∧ panicOf (runMsgs plainKit unreachableCluster (initialModel plainKit none) []
        [Msg.nodesMsg [worker1Info], Msg.KeyMsg "enter", Msg.KeyMsg "enter", Msg.KeyMsg "enter"])
      = some "nil pointer dereference" := by
  refine ⟨?_, ?_, ?_, ?_⟩ <;> decide

/-- The cordon statements change neither the state nor the selection. -/
theorem cordonSelectedNode_keeps (kit : Toolkit) (cl : Cluster) (m : model kit)
    (log : List Effect) (c : Cordoned kit) (h : cordonSelectedNode kit cl m log = .ok c) :
    match c with
    | Cordoned.failed m1 _ => m1.state = m.state ∧ m1.selectedPods = m.selectedPods
    | Cordoned.done m1 _ => m1.state = m.state ∧ m1.selectedPods = m.selectedPods := by
  simp only [cordonSelectedNode] at h
  split at h
  · simp at h
  · split at h
    · simp only [Except.ok.injEq] at h
      subst h
      exact ⟨rfl, rfl⟩
    · simp only [Except.ok.injEq] at h
      subst h
      exact ⟨rfl, rfl⟩

/-- One `Update` step keeps the ConfirmPod screen bound to a non-empty
selection: if the model satisfies "state `confirmPod` implies a non-empty
selection", so does the model after the step. -/
theorem Update_confirmPod_nonempty (kit : Toolkit) (cl : Cluster) (m : model kit)
    (log : List Effect) (msg : Msg) (r : model kit × Cmd × List Effect)
    (hinv : m.state = StateConfirmPod → m.selectedPods ≠ [])
    (hu : Update kit cl m log msg = .ok r) :
    r.1.state = StateConfirmPod → r.1.selectedPods ≠ [] := by
  cases msg with
  | KeyMsg s =>
    simp only [Update] at hu
    split at hu
    · simp only [Except.ok.injEq] at hu
      subst hu
      exact hinv
    · simp only [updateState] at hu
      split at hu
      · rename_i hstate
        simp only [updateSelectNode] at hu
        repeat' split at hu
        all_goals first
          | (simp at hu; done)
          | (simp only [Except.ok.injEq] at hu; subst hu; intro h; simp_all)
      · rename_i hstate
        simp only [updateSelectAction] at hu
        repeat' split at hu
        all_goals first
          | (simp at hu; done)
          | (simp only [Except.ok.injEq] at hu; subst hu; intro h; simp_all)
      · rename_i hstate
        simp only [updateConfirmCordon] at hu
        split at hu
        · split at hu
          · simp only [Except.ok.injEq] at hu; subst hu; intro h; simp_all
          · split at hu
            · split at hu
              · simp at hu
              · simp only [Except.ok.injEq] at hu; subst hu
                rename_i hcord
                have := cordonSelectedNode_keeps kit cl _ log _ hcord
                intro h
                simp_all
              · split at hu
                all_goals (simp only [Except.ok.injEq] at hu; subst hu; intro h; simp at h)
            · simp only [Except.ok.injEq] at hu; subst hu; intro h; simp at h
          · simp at hu
        · simp only [Except.ok.injEq] at hu; subst hu; intro h; simp_all
      · rename_i hstate
        simp only [updateConfirm] at hu
        split at hu
        · split at hu
          · simp only [Except.ok.injEq] at hu; subst hu; intro h; simp_all
          · split at hu
            · split at hu
              · simp at hu
              · simp only [Except.ok.injEq] at hu; subst hu
                rename_i hcord
                have := cordonSelectedNode_keeps kit cl _ log _ hcord
                intro h
                simp_all
              · rename_i hcord
                have := cordonSelectedNode_keeps kit cl _ log _ hcord
                repeat' split at hu
                all_goals (simp only [Except.ok.injEq] at hu; subst hu; intro h; simp_all)
            · simp only [Except.ok.injEq] at hu; subst hu; intro h; simp at h
          · simp at hu
        · simp only [Except.ok.injEq] at hu; subst hu; intro h; simp_all
      · rename_i hstate
        simp only [updateSelectPods] at hu
        repeat' split at hu
        all_goals first
          | (simp at hu; done)
          | (simp only [Except.ok.injEq] at hu; subst hu; intro h hnil; simp_all)
      · rename_i hstate
        simp only [updateConfirmPod] at hu
        split at hu
        · split at hu
          · simp only [Except.ok.injEq] at hu; subst hu; intro h; simp_all
          · split at hu
            · split at hu
              · simp at hu
              · simp only [Except.ok.injEq] at hu; subst hu
                rename_i hcord
                have := cordonSelectedNode_keeps kit cl _ log _ hcord
                intro h
                simp_all
              · simp only [Except.ok.injEq] at hu; subst hu
                rename_i hcord
                have := cordonSelectedNode_keeps kit cl _ log _ hcord
                intro h
                simp_all
            · simp only [Except.ok.injEq] at hu; subst hu; intro h; simp at h
          · simp at hu
        · simp only [Except.ok.injEq] at hu; subst hu; intro h; simp_all
      · rename_i hstate
        simp only [updateConfirmToggle] at hu
        repeat' split at hu
        all_goals first
          | (simp at hu; done)
          | (simp only [Except.ok.injEq] at hu; subst hu; intro h; simp_all)
  | WindowSizeMsg Width Height =>
    simp only [Update] at hu
    split at hu
    · simp only [Except.ok.injEq] at hu
      subst hu
      exact hinv
    · rw [updateState_nonkey kit cl _ log _ (by intro s; simp)] at hu
      simp only [Except.ok.injEq] at hu
      subst hu
      exact hinv
  | error e =>
    simp only [Update, Except.ok.injEq] at hu
    subst hu
    exact hinv
  | nodesMsg nodes =>
    simp only [Update, Except.ok.injEq] at hu
    subst hu
    exact hinv
  | podsMsg pods =>
    simp only [Update, Except.ok.injEq] at hu
    subst hu
    exact hinv
  | other tag =>
    simp only [Update] at hu
    rw [updateState_nonkey kit cl _ log _ (by intro s; simp)] at hu
    simp only [Except.ok.injEq] at hu
    subst hu
    exact hinv

/-- In every model reached from `initialModel` by any messages, on any
toolkit and cluster, the ConfirmPod screen comes with a non-empty selection
(the part of the confirmation invariant that the code keeps). -/
theorem confirmPod_selection_nonempty (kit : Toolkit) (cl : Cluster) (size : Option (Int × Int))
    (msgs : List Msg) (m : model kit) (cmds : List Cmd) (log : List Effect)
    (hrun : runMsgs kit cl (initialModel kit size) [] msgs = .ok (m, cmds, log)) :
    m.state = StateConfirmPod → m.selectedPods ≠ [] := by
  have key : ∀ (msgs : List Msg) (m0 m : model kit) (log0 log : List Effect) (cmds : List Cmd),
      (m0.state = StateConfirmPod → m0.selectedPods ≠ []) →
      runMsgs kit cl m0 log0 msgs = .ok (m, cmds, log) →
      m.state = StateConfirmPod → m.selectedPods ≠ [] := by
    intro msgs
    induction msgs with
    | nil =>
      intro m0 m log0 log cmds hinv hrun
      simp only [runMsgs, Except.ok.injEq, Prod.mk.injEq] at hrun
      obtain ⟨rfl, _, _⟩ := hrun
      exact hinv
    | cons msg rest ih =>
      intro m0 m log0 log cmds hinv hrun
      obtain ⟨m1, cmd, log1, cmds1, hu, hr, _⟩ :=
        runMsgs_cons kit cl m0 m log0 log msg rest cmds hrun
      exact ih m1 m log1 log cmds1
        (Update_confirmPod_nonempty kit cl m0 log0 msg _ hinv hu) hr
  refine key msgs (initialModel kit size) m [] log cmds ?_ hrun
  intro h
  simp [initialModel] at h

/-- The space key in state `selectPods` with a pod highlighted: `Update`
flips the pod's mark in `m.pods`, refreshes the list, applies the toggle of
the selection map to the pod's key, returns nil and makes no call. -/
theorem Update_space_toggles (kit : Toolkit) (cl : Cluster) (m : model kit)
    (log : List Effect) (pod : podInfo)
    (hstate : m.state = StateSelectPods)
    (hpod : kit.SelectedItem (kit.Update m.list (Msg.KeyMsg " ")).1 = some (Item.ofPod pod)) :
    Update kit cl m log (Msg.KeyMsg " ")
      = .ok ({ m with
                 pods := flipSelected pod.name pod.nspace m.pods
                 list := kit.Select
                           (kit.SetItems (kit.Update m.list (Msg.KeyMsg " ")).1
                              ((flipSelected pod.name pod.nspace m.pods).map Item.ofPod))
                           (kit.Index (kit.Update m.list (Msg.KeyMsg " ")).1)
                 selectedPods := toggleSelected m.selectedPods (pod.nspace ++ "/" ++ pod.name) pod },
             Cmd.nil, log) := by
  simp [Update, updateState, hstate, updateSelectPods, KeySpace, hpod]

/-- Every message other than space and Enter in state `selectPods` leaves
the state, the selection map and the log as they were. -/
theorem Update_selectPods_other (kit : Toolkit) (cl : Cluster) (m : model kit)
    (log : List Effect) (msg : Msg) (r : model kit × Cmd × List Effect)
    (hstate : m.state = StateSelectPods)
    (hspace : msg ≠ Msg.KeyMsg KeySpace) (henter : msg ≠ Msg.KeyMsg KeyEnter)
    (hu : Update kit cl m log msg = .ok r) :
    r.1.state = StateSelectPods ∧ r.1.selectedPods = m.selectedPods ∧ r.2.2 = log := by
  cases msg with
  | KeyMsg s =>
    have h1 : s ≠ KeySpace := fun h => hspace (by rw [h])
    have h2 : s ≠ KeyEnter := fun h => henter (by rw [h])
    simp only [Update] at hu
    split at hu
    · simp only [Except.ok.injEq] at hu
      subst hu
      exact ⟨hstate, rfl, rfl⟩
    · simp only [updateState, hstate, updateSelectPods, if_neg h1, if_neg h2,
        Except.ok.injEq] at hu
      subst hu
      exact ⟨rfl, rfl, rfl⟩
  | WindowSizeMsg Width Height =>
    simp only [Update] at hu
    split at hu
    · simp only [Except.ok.injEq] at hu
      subst hu
      exact ⟨hstate, rfl, rfl⟩
    · rw [updateState_nonkey kit cl _ log _ (by intro s; simp)] at hu
      simp only [Except.ok.injEq] at hu
      subst hu
      exact ⟨hstate, rfl, rfl⟩
  | error e =>
    simp only [Update, Except.ok.injEq] at hu
    subst hu
    exact ⟨hstate, rfl, rfl⟩
  | nodesMsg nodes =>
    simp only [Update, Except.ok.injEq] at hu
    subst hu
    exact ⟨hstate, rfl, rfl⟩
  | podsMsg pods =>
    simp only [Update, Except.ok.injEq] at hu
    subst hu
    exact ⟨hstate, rfl, rfl⟩
  | other tag =>
    simp only [Update] at hu
    rw [updateState_nonkey kit cl _ log _ (by intro s; simp)] at hu
    simp only [Except.ok.injEq] at hu
    subst hu
    exact ⟨hstate, rfl, rfl⟩

/-- A run that presses space on pods with pairwise distinct keys, none of
them selected before, appends one entry per pod to the selection map, makes
no call and stays in state `selectPods`. -/
theorem togglesPods_run (kit : Toolkit) (cl : Cluster) (msgs : List Msg) (m : model kit)
    (log : List Effect) (ps : List podInfo)
    (hstate : m.state = StateSelectPods)
    (hrun : togglesPods kit cl m log msgs ps = true)
    (hnodup : (ps.map fun p => p.nspace ++ "/" ++ p.name).Nodup)
    (hdisj : ∀ k ∈ ps.map (fun p => p.nspace ++ "/" ++ p.name), k ∉ m.selectedPods.map Prod.fst) :
    ∃ m' cmds, runMsgs kit cl m log msgs = .ok (m', cmds, log)
      ∧ m'.state = StateSelectPods
      ∧ m'.selectedPods = m.selectedPods ++ ps.map (fun p => (p.nspace ++ "/" ++ p.name, p)) := by
  induction msgs generalizing m log ps with
  | nil =>
    simp only [togglesPods, List.isEmpty_iff] at hrun
    subst hrun
    exact ⟨m, [], rfl, hstate, by simp⟩
  | cons msg rest ih =>
    simp only [togglesPods] at hrun
    split at hrun
    · simp at hrun
    · rename_i m1 c log1 hu
      by_cases hsp : msg = Msg.KeyMsg KeySpace
      · subst hsp
        simp only [if_true] at hrun
        split at hrun
        · simp at hrun
        · rename_i p ps1
          simp only [Bool.and_eq_true, decide_eq_true_eq] at hrun
          obtain ⟨hpod, hrest⟩ := hrun
          have hstep := Update_space_toggles kit cl m log p hstate hpod
          have hu' : Update kit cl m log (Msg.KeyMsg " ") = .ok (m1, c, log1) := hu
          rw [hstep] at hu'
          simp only [Except.ok.injEq, Prod.mk.injEq] at hu'
          obtain ⟨hm1, _, hlog1⟩ := hu'
          simp only [List.map_cons, List.nodup_cons] at hnodup
          have habs : p.nspace ++ "/" ++ p.name ∉ m.selectedPods.map Prod.fst :=
            hdisj _ (by simp)
          have hsel1 : m1.selectedPods
              = m.selectedPods ++ [(p.nspace ++ "/" ++ p.name, p)] := by
            rw [← hm1]
            exact toggleSelected_absent m.selectedPods _ p habs
          have hstate1 : m1.state = StateSelectPods := by rw [← hm1]; exact hstate
          subst hlog1
          obtain ⟨m', cmds, hrun', hst', hsel'⟩ := ih m1 log ps1 hstate1 hrest hnodup.2 (by
            intro k hk
            rw [hsel1]
            simp only [List.map_append, List.map_cons, List.map_nil, List.mem_append,
              List.mem_singleton, not_or]
            refine ⟨hdisj k (by simp only [List.map_cons, List.mem_cons]; exact Or.inr hk), ?_⟩
            rintro rfl
            exact hnodup.1 hk)
          refine ⟨m', c :: cmds, ?_, hst', ?_⟩
          · simp only [runMsgs, hu, hrun']
          · rw [hsel', hsel1]
            simp
      · by_cases hen : msg = Msg.KeyMsg KeyEnter
        · subst hen
          simp [KeyEnter, KeySpace] at hrun
        · obtain ⟨hst1, hsel1, hlog1⟩ :=
            Update_selectPods_other kit cl m log msg _ hstate hsp hen hu
          simp only at hst1 hsel1 hlog1
          subst hlog1
          have hrest : togglesPods kit cl m1 log1 rest ps = true := by
            cases msg with
            | KeyMsg s =>
              have h1 : s ≠ KeySpace := fun h => hsp (by rw [h])
              have h2 : s ≠ KeyEnter := fun h => hen (by rw [h])
              simpa [h1, h2] using hrun
            | _ => simpa using hrun
          obtain ⟨m', cmds, hrun', hst', hsel'⟩ := ih m1 log1 ps hst1 hrest hnodup (by
            rw [hsel1]; exact hdisj)
          refine ⟨m', c :: cmds, ?_, hst', ?_⟩
          · simp only [runMsgs, hu, hrun']
          · rw [hsel', hsel1]

/-- C4: in state `selectPods`, `Update` on space applies the toggle of the
selection map to the key of the highlighted pod (and makes no call).
Pressing space twice on a pod (the second press finding a pod with the same
key highlighted) gives a selection set with the same key membership as
before, whatever the set.  And a run from an empty selection that presses
space on pods with pairwise distinct keys, with any other messages except
Enter in between, ends with a selection set of exactly one entry per pod:
as many entries as pods, with distinct keys. -/
theorem C4_space_toggles_twice_and_distinct (kit : Toolkit) (cl : Cluster)
    (m m0 : model kit) (log log0 : List Effect) (pod pod2 : podInfo) (msgs : List Msg)
    (ps : List podInfo)
    (hstate : m.state = StateSelectPods)
    (hpod : kit.SelectedItem (kit.Update m.list (Msg.KeyMsg " ")).1 = some (Item.ofPod pod))
    (hpod2 : kit.SelectedItem (kit.Update (spaceToggled kit m pod).list (Msg.KeyMsg " ")).1
               = some (Item.ofPod pod2))
    (hkey : pod2.nspace ++ "/" ++ pod2.name = pod.nspace ++ "/" ++ pod.name)
    (hstate0 : m0.state = StateSelectPods) (hempty : m0.selectedPods = [])
    (hrun : togglesPods kit cl m0 log0 msgs ps = true)
    (hnodup : (ps.map fun p => p.nspace ++ "/" ++ p.name).Nodup) :
    Update kit cl m log (Msg.KeyMsg " ") = .ok (spaceToggled kit m pod, Cmd.nil, log)
    ∧ Update kit cl (spaceToggled kit m pod) log (Msg.KeyMsg " ")
        = .ok (spaceToggled kit (spaceToggled kit m pod) pod2, Cmd.nil, log)
    ∧ (∀ k, k ∈ (spaceToggled kit (spaceToggled kit m pod) pod2).selectedPods.map Prod.fst
              ↔ k ∈ m.selectedPods.map Prod.fst)
    ∧ ∃ m' cmds, runMsgs kit cl m0 log0 msgs = .ok (m', cmds, log0)
        ∧ m'.selectedPods = ps.map (fun p => (p.nspace ++ "/" ++ p.name, p))
        ∧ m'.selectedPods.length = ps.length
        ∧ (m'.selectedPods.map Prod.fst).Nodup := by
  refine ⟨?_, ?_, ?_, ?_⟩
  · exact Update_space_toggles kit cl m log pod hstate hpod
  · exact Update_space_toggles kit cl (spaceToggled kit m pod) log pod2 hstate hpod2
  · intro k
    simp only [spaceToggled, hkey]
    exact (toggleSelected_twice_and_distinct m.selectedPods [] (pod.nspace ++ "/" ++ pod.name)
      pod pod2 (by simp)).1 k
  · obtain ⟨m', cmds, h1, _, h3⟩ :=
      togglesPods_run kit cl msgs m0 log0 ps hstate0 hrun hnodup (by simp [hempty])
    rw [hempty, List.nil_append] at h3
    refine ⟨m', cmds, h1, h3, by simp [h3], ?_⟩
    rw [h3, List.map_map]
    exact hnodup

/-- Witness of C4: on the pod list of `worker-1`, space on `ns1/pod-a`, then
again on it; and space, down, space selects `ns1/pod-a` and `ns1/pod-b`: two
presses on distinct keys, two entries. -/
theorem C4_space_toggles_twice_and_distinct_witness :
    togglesPods plainKit failingCluster selectPodsModel []
        [Msg.KeyMsg " ", Msg.KeyMsg "down", Msg.KeyMsg " "] [podA, podB] = true
    ∧ (∀ k, k ∈ (spaceToggled plainKit (spaceToggled plainKit selectPodsModel podA)
                  { podA with selected := true }).selectedPods.map Prod.fst
              ↔ k ∈ selectPodsModel.selectedPods.map Prod.fst)
    ∧ ∃ m' cmds, runMsgs plainKit failingCluster selectPodsModel []
          [Msg.KeyMsg " ", Msg.KeyMsg "down", Msg.KeyMsg " "] = .ok (m', cmds, [])
        ∧ m'.selectedPods = [("ns1/pod-a", podA), ("ns1/pod-b", podB)]
        ∧ m'.selectedPods.length = 2
        ∧ (m'.selectedPods.map Prod.fst).Nodup :=
  ⟨by decide,
   (C4_space_toggles_twice_and_distinct plainKit failingCluster selectPodsModel selectPodsModel
      [] [] podA { podA with selected := true }
      [Msg.KeyMsg " ", Msg.KeyMsg "down", Msg.KeyMsg " "] [podA, podB]
      rfl rfl rfl rfl rfl rfl (by decide) (by decide)).2.2⟩

end NodeMaintain
